import Mathlib

/-!
Verification development for the submarine-mass-failure (SMF) tsunami source
module `source/anuga/shallow_water/smf.py`.

The Python module computes, from physical slide/slump parameters, a callable
double-Gaussian evaluator for the initial water-surface displacement.  The
code works on IEEE floats; here it is embedded shallowly over the exact reals.
Python's numeric exceptions are made explicit:

* float division by zero raises `ZeroDivisionError`   -> `divOpt`/`zdivE` return
  `none` / `Except.error CallErr.zdiv` exactly when the denominator is zero;
* `math.log` of a non-positive argument and `math.sqrt` of a negative argument
  raise `ValueError`                                  -> `logOpt`/`sqrtOpt`;
* a negative base under a fractional power raises `ValueError` (Python 2)
                                                      -> `rpowOpt`;
* `math.cosh`, `math.exp` and `x ** 2` raise `OverflowError` past the IEEE
  double range; the range bound is abstracted by the constants `coshOvfBound`,
  `expOvfBound`, `sqOvfBound` (the claims under audit never depend on their
  exact values, only on the ok/overflow case split)   -> `coshE`/`expE`/`sqE`.

A derivation procedure (`slide_tsunami`, `slump_tsunami`) therefore returns
`Option Double_gaussian`: `none` models a raised Python exception, `some dg`
a normal return.  The evaluator's `__call__` returns `Option (List ℝ)`:
`none` models an uncaught exception (the `assert`, or a `ZeroDivisionError`
inside the loop, which the source's `except OverflowError` does not catch),
while an element whose computation overflows keeps its pre-initialised `0.0`.
-/

namespace SMF

/-- Degrees to radians, as Python's `math.radians`. -/
noncomputable def radians (d : ℝ) : ℝ := d * Real.pi / 180

/-- Python float division: `ZeroDivisionError` (here `none`) when the
denominator is zero, otherwise the real quotient. -/
noncomputable def divOpt (a b : ℝ) : Option ℝ :=
  if b = 0 then none else some (a / b)

/-- Python `math.log`: `ValueError` (here `none`) on a non-positive argument. -/
noncomputable def logOpt (x : ℝ) : Option ℝ :=
  if x ≤ 0 then none else some (Real.log x)

/-- Python `math.sqrt`: `ValueError` (here `none`) on a negative argument. -/
noncomputable def sqrtOpt (x : ℝ) : Option ℝ :=
  if x < 0 then none else some (Real.sqrt x)

/-- Python 2 `x ** y` for real exponents: `ValueError` (here `none`) when the
base is negative (fractional power of a negative float), otherwise `rpow`. -/
noncomputable def rpowOpt (b e : ℝ) : Option ℝ :=
  if b < 0 then none else some (b ^ e)

/-- The two kinds of exception the evaluation loop of
`Double_gaussian.__call__` can meet: `ovf` is the caught `OverflowError`,
`zdiv` the uncaught `ZeroDivisionError`. -/
inductive CallErr where
  | ovf : CallErr
  | zdiv : CallErr
deriving DecidableEq

/-- Abstraction of the argument bound past which `math.cosh` overflows an
IEEE double (about 710.47). -/
def coshOvfBound : ℝ := 711

/-- Abstraction of the argument bound past which `math.exp` overflows an
IEEE double (about 709.78). -/
def expOvfBound : ℝ := 710

/-- Abstraction of the magnitude bound past which `x ** 2` overflows an
IEEE double (about 1.34e154). -/
noncomputable def sqOvfBound : ℝ := 10 ^ (154 : ℕ)

/-- Checked float division inside the evaluation loop: the uncaught
`ZeroDivisionError`. -/
noncomputable def zdivE (a b : ℝ) : Except CallErr ℝ :=
  if b = 0 then Except.error CallErr.zdiv else Except.ok (a / b)

/-- Checked `math.cosh`: `OverflowError` past the IEEE range. -/
noncomputable def coshE (t : ℝ) : Except CallErr ℝ :=
  if coshOvfBound < |t| then Except.error CallErr.ovf else Except.ok (Real.cosh t)

/-- Checked `x ** 2`: `OverflowError` when the square leaves the IEEE range. -/
noncomputable def sqE (t : ℝ) : Except CallErr ℝ :=
  if sqOvfBound < |t| then Except.error CallErr.ovf else Except.ok (t ^ 2)

/-- Checked `math.exp`: `OverflowError` for large positive arguments (a large
negative argument underflows to `0.0` without an exception, so only the upper
bound is checked). -/
noncomputable def expE (t : ℝ) : Except CallErr ℝ :=
  if expOvfBound < t then Except.error CallErr.ovf else Except.ok (Real.exp t)

/-- The un-scaled x-shape `g` of the double Gaussian, as written in
`find_min`: `exp(-((x-x0)/wa)**2) - kappad*exp(-((x-dx-x0)/wa)**2)`. -/
noncomputable def gShape (x0 wa kappad dx x : ℝ) : ℝ :=
  Real.exp (-((x - x0) / wa) ^ 2) - kappad * Real.exp (-((x - dx - x0) / wa) ^ 2)

/-- The derivative-sign expression evaluated each step by `find_min`'s loop:
`(x-x0)*exp(-((x-x0)/wa)**2) - kappad*(x-dx-x0)*exp(-((x-dx-x0)/wa)**2)`.
It equals `-(wa^2/2) * d/dx gShape`, see `gShape_hasDerivAt`. -/
noncomputable def derivExpr (x0 wa kappad dx x : ℝ) : ℝ :=
  (x - x0) * Real.exp (-((x - x0) / wa) ^ 2) -
    kappad * (x - dx - x0) * Real.exp (-((x - dx - x0) / wa) ^ 2)

/-- The y-factor extremum used by `find_min`: `-f(ystar) = 1.0` at `y = y0`. -/
def f_ystar : ℝ := 1

/-- The backward scan of `find_min`: starting at `x`, evaluate `derivExpr` and
stop (recording `xstar = x`, `some x`) as soon as it is non-positive, else
step to `x - 0.05`; with the fuel exhausted `xstar` was never assigned and the
Python source raises `NameError` (`none`). -/
noncomputable def findMinLoop (x0 wa kappad dx : ℝ) : ℕ → ℝ → Option ℝ
  | 0, _ => none
  | n + 1, x =>
    if derivExpr x0 wa kappad dx x ≤ 0 then some x
    else findMinLoop x0 wa kappad dx n (x - 0.05)

/-- `find_min(x0, wa, kappad, dx)` of the source: scan down from `x0 + 50` in
steps of `0.05` for at most `1000000` derivative evaluations, then return
`g(xstar) * f_ystar`.  The `while` loop's body always runs at least once
(`deriv` starts at `10.0 > 0`) and its first operation divides `x - x0` by
`wa`, so when `wa = 0` the very first derivative evaluation raises an uncaught
`ZeroDivisionError` and no value is returned (`none`). -/
noncomputable def find_min (x0 wa kappad dx : ℝ) : Option ℝ :=
  if wa = 0 then none
  else
    (findMinLoop x0 wa kappad dx 1000000 (x0 + 50)).map fun xstar =>
      gShape x0 wa kappad dx xstar * f_ystar

/-- The lobe-offset computation shared by `slide_tsunami`, `slump_tsunami`,
`Double_gaussian.__init__` and `determineDX`:
`dx = 2.0 * (wavelength * sqrt(-log(zsmall/a3D, e))) / 5.0`, with Python's
domain errors for the division, the log and the sqrt made explicit. -/
noncomputable def dxFormulaOpt (a3D wavelength zsmall : ℝ) : Option ℝ := do
  let q ← divOpt zsmall a3D
  let l ← logOpt q
  let s ← sqrtOpt (-l)
  pure (2.0 * (wavelength * s) / 5.0)

/-- The state of a `Double_gaussian` instance: exactly the fields
`__init__` stores (`zsmall` is consumed, not stored). -/
structure Double_gaussian where
  a3D : ℝ
  wavelength : ℝ
  width : ℝ
  x0 : ℝ
  y0 : ℝ
  alpha : ℝ
  kappa : ℝ
  kappad : ℝ
  scale : ℝ
  dx : ℝ

/-- `Double_gaussian.__init__`: stores the ten fields; when `dx` is `None` it
is computed from `zsmall`, `wavelength` and `a3D` (raising on a domain
error, hence the `Option`). -/
noncomputable def Double_gaussian.make (a3D wavelength width x0 y0 alpha kappa
    kappad zsmall : ℝ) (dx : Option ℝ) (scale : ℝ) : Option Double_gaussian :=
  match dx with
  | some d => some ⟨a3D, wavelength, width, x0, y0, alpha, kappa, kappad, scale, d⟩
  | none => (dxFormulaOpt a3D wavelength zsmall).map fun d =>
      ⟨a3D, wavelength, width, x0, y0, alpha, kappa, kappad, scale, d⟩

/-- `Double_gaussian.determineDX(zsmall)`: recompute `self.dx` from
`(a3D, wavelength, zsmall)` and return it; the updated object is returned
beside the value since the embedding is stateless. -/
noncomputable def Double_gaussian.determineDX (dg : Double_gaussian)
    (zsmall : ℝ) : Option (ℝ × Double_gaussian) :=
  (dxFormulaOpt dg.a3D dg.wavelength zsmall).map fun d => (d, { dg with dx := d })

/-- Rotation of `(xi, yi)` about `(x0, y0)` by the angle `theta` measured
CLOCKWISE, the sign convention of the source's `alpha` (which is "clockwise
from the E-W direction").  So `rotCW (-(radians alpha))` is the rotation "by
`-alpha`" of the specification, and it reproduces the source's `(xr, yr)`. -/
noncomputable def rotCW (theta x0 y0 xi yi : ℝ) : ℝ × ℝ :=
  (x0 + (xi - x0) * Real.cos theta + (yi - y0) * Real.sin theta,
   y0 - (xi - x0) * Real.sin theta + (yi - y0) * Real.cos theta)

/-- The source's `xr`: `((x-x0) * cosa - (y-y0) * sina) + x0`. -/
noncomputable def Double_gaussian.xr (dg : Double_gaussian) (xi yi : ℝ) : ℝ :=
  ((xi - dg.x0) * Real.cos (radians dg.alpha) -
    (yi - dg.y0) * Real.sin (radians dg.alpha)) + dg.x0

/-- The source's `yr`: `((x-x0) * sina + (y-y0) * cosa) + y0`. -/
noncomputable def Double_gaussian.yr (dg : Double_gaussian) (xi yi : ℝ) : ℝ :=
  ((xi - dg.x0) * Real.sin (radians dg.alpha) +
    (yi - dg.y0) * Real.cos (radians dg.alpha)) + dg.y0

/-- One element of the evaluation loop, after the rotation: the body of the
`try:` block, with each operation that can raise in Python checked in the
source's evaluation order. -/
noncomputable def elemCore (dg : Double_gaussian) (xr yr : ℝ) : Except CallErr ℝ := do
  let carg ← zdivE (dg.kappa * (yr - dg.y0)) (dg.width + dg.wavelength)
  let ch ← coshE carg
  let ch2 ← sqE ch
  let t1 ← zdivE (xr - dg.x0) dg.wavelength
  let s1 ← sqE t1
  let e1 ← expE (-s1)
  let t2 ← zdivE (xr - dg.dx - dg.x0) dg.wavelength
  let s2 ← sqE t2
  let e2 ← expE (-s2)
  pure ((-dg.scale) / ch2 * (e1 - dg.kappad * e2))

/-- The element computation at input point `(xi, yi)`. -/
noncomputable def elemExc (dg : Double_gaussian) (xi yi : ℝ) : Except CallErr ℝ :=
  elemCore dg (dg.xr xi yi) (dg.yr xi yi)

/-- The value stored in `z[i]`: the computed value, or the pre-initialised
`0.0` when the element's computation raised a (caught) `OverflowError`. -/
noncomputable def elemValue (dg : Double_gaussian) (xi yi : ℝ) : ℝ :=
  match elemExc dg xi yi with
  | Except.ok v => v
  | Except.error _ => 0

/-- The evaluation loop over the zipped coordinate list: an `ovf` element
leaves `0.0` and the loop continues; a `zdiv` element aborts the whole call
(the `except OverflowError` clause does not catch it). -/
noncomputable def callElems (dg : Double_gaussian) : List (ℝ × ℝ) → Option (List ℝ)
  | [] => some []
  | p :: ps =>
    match elemExc dg p.1 p.2 with
    | Except.error CallErr.zdiv => none
    | Except.error CallErr.ovf => (callElems dg ps).map fun zs => 0 :: zs
    | Except.ok v => (callElems dg ps).map fun zs => v :: zs

/-- `Double_gaussian.__call__(x, y)`: the `assert N == len(y)` (an
`AssertionError` is `none`), then the element loop. -/
noncomputable def Double_gaussian.call (dg : Double_gaussian) (x y : List ℝ) :
    Option (List ℝ) :=
  if x.length = y.length then callElems dg (x.zip y) else none

/-- The specification's closed-form element value: rotate `(x_i, y_i)` by
`-alpha` about `(x0, y0)` (clockwise-positive convention, `rotCW`), then
`z_i = -scale / cosh(kappa*(yr-y0)/(width+wavelength))^2 *
(exp(-((xr-x0)/wavelength)^2) - kappad*exp(-((xr-dx-x0)/wavelength)^2))`. -/
noncomputable def specElemFormula (dg : Double_gaussian) (xi yi : ℝ) : ℝ :=
  (-dg.scale) /
      Real.cosh (dg.kappa * ((rotCW (-(radians dg.alpha)) dg.x0 dg.y0 xi yi).2 - dg.y0) /
        (dg.width + dg.wavelength)) ^ 2 *
    (Real.exp (-(((rotCW (-(radians dg.alpha)) dg.x0 dg.y0 xi yi).1 - dg.x0) /
        dg.wavelength) ^ 2) -
      dg.kappad * Real.exp (-(((rotCW (-(radians dg.alpha)) dg.x0 dg.y0 xi yi).1 -
        dg.dx - dg.x0) / dg.wavelength) ^ 2))

/-- `slide_tsunami` of the source.  `width`/`thickness` are `None`-defaulted,
`dxArg` is the caller's `dx` argument (shadowed by the unconditional
recomputation at line 131 of the source), `frictionco` is never read, and
`domain` contributes only the georeference corner offsets.  `verbose`
printing and the advisory range warnings have no functional effect and are
not modelled. -/
noncomputable def slide_tsunami (length depth slope : ℝ) (width thickness : Option ℝ)
    (x0 y0 alpha gravity gamma massco dragco frictionco psi : ℝ)
    (dxArg : Option ℝ) (kappa kappad zsmall : ℝ) (scale : Option ℝ)
    (domain : Option (ℝ × ℝ)) : Option Double_gaussian := do
  let x0r := match domain with | some o => x0 - o.1 | none => x0
  let y0r := match domain with | some o => y0 - o.2 | none => y0
  let widthv := width.getD (0.25 * length)
  let thicknessv := thickness.getD (0.01 * length)
  let sint := Real.sin (radians slope)
  let tant := Real.tan (radians slope)
  let tanp := Real.tan (radians psi)
  let r1 ← divOpt (gamma - 1) (gamma + massco)
  let r2 ← divOpt tanp tant
  let a0 := gravity * sint * r1 * (1 - r2)
  let u1 ← divOpt (length * sint) depth
  let u2 ← divOpt (Real.pi * (gamma - 1)) (2 * dragco)
  let ut ← sqrtOpt (gravity * depth * u1 * u2 * (1 - r2))
  let s0 ← divOpt (ut ^ 2) a0
  let t0 ← divOpt ut a0
  let wsq ← sqrtOpt (gravity * depth)
  let w := t0 * wsq
  let tl ← divOpt thicknessv length
  let p1 ← rpowOpt u1 1.25
  let a2D := s0 * (0.0574 - 0.0431 * sint) * tl * p1 *
    (1 - Real.exp (-2.2 * (gamma - 1)))
  let d1 ← divOpt depth (length * sint)
  let sq2 ← sqrtOpt d1
  let a3D ← divOpt a2D (1 + 15.5 * sq2)
  let dxv ← dxFormulaOpt a3D w zsmall
  let nmin ← find_min x0r w kappad dxv
  let scalev ← match scale with
    | none => divOpt a3D nmin
    | some s => pure s
  Double_gaussian.make a3D w widthv x0r y0r alpha kappa kappad zsmall (some dxv) scalev

/-- `slump_tsunami` of the source; same conventions as `slide_tsunami`.
`a0` and `um` are computed (and can raise) but are not used afterwards. -/
noncomputable def slump_tsunami (length depth slope : ℝ)
    (width thickness radius : Option ℝ)
    (dphi x0 y0 alpha gravity gamma massco dragco frictionco : ℝ)
    (dxArg : Option ℝ) (kappa kappad zsmall : ℝ) (scale : Option ℝ)
    (domain : Option (ℝ × ℝ)) : Option Double_gaussian := do
  let x0r := match domain with | some o => x0 - o.1 | none => x0
  let y0r := match domain with | some o => y0 - o.2 | none => y0
  let widthv := width.getD length
  let thicknessv := thickness.getD (0.1 * length)
  let radiusv ← match radius with
    | some r => pure r
    | none => divOpt (length ^ 2) (8.0 * thicknessv)
  let sint := Real.sin (radians slope)
  let s0 := radiusv * dphi / 2
  let t1 ← divOpt (radiusv * (gamma + massco)) (gravity * (gamma - 1))
  let t0 ← sqrtOpt t1
  let _a0 ← divOpt s0 (t0 ^ 2)
  let _um ← divOpt s0 t0
  let wsq ← sqrtOpt (gravity * depth)
  let w := t0 * wsq
  let f1 ← divOpt 0.131 sint
  let tl ← divOpt thicknessv length
  let l1 ← divOpt (length * sint) depth
  let p1 ← rpowOpt l1 1.25
  let lr ← divOpt length radiusv
  let p2 ← rpowOpt lr 0.63
  let p3 ← rpowOpt dphi 0.39
  let a2D := s0 * f1 * tl * p1 * p2 * p3 * (1.47 - 0.35 * (gamma - 1)) * (gamma - 1)
  let q1 ← divOpt depth length
  let sq ← sqrtOpt q1
  let a3D ← divOpt a2D (1 + 2.06 * sq)
  let dxv ← dxFormulaOpt a3D w zsmall
  let nmin ← find_min x0r w kappad dxv
  let scalev ← match scale with
    | none => divOpt a3D nmin
    | some s => pure s
  Double_gaussian.make a3D w widthv x0r y0r alpha kappa kappad zsmall (some dxv) scalev

/-- The total-real twin of the slide's `a0` formula (used to state the error
conditions; it coincides with the value bound in `slide_tsunami` whenever the
guarded divisions there succeed, since the guarded value is the same total
quotient). -/
noncomputable def slide_a0F (slope psi gravity gamma massco : ℝ) : ℝ :=
  gravity * Real.sin (radians slope) * ((gamma - 1) / (gamma + massco)) *
    (1 - Real.tan (radians psi) / Real.tan (radians slope))

/-- Total-real twin of the slide's `ut` formula. -/
noncomputable def slide_utF (length depth slope psi gravity gamma dragco : ℝ) : ℝ :=
  Real.sqrt (gravity * depth * (length * Real.sin (radians slope) / depth) *
    (Real.pi * (gamma - 1) / (2 * dragco)) *
    (1 - Real.tan (radians psi) / Real.tan (radians slope)))

/-- Total-real twin of the slide's `s0 = ut**2 / a0`. -/
noncomputable def slide_s0F (length depth slope psi gravity gamma massco dragco : ℝ) : ℝ :=
  slide_utF length depth slope psi gravity gamma dragco ^ 2 /
    slide_a0F slope psi gravity gamma massco

/-- Total-real twin of the slide's `a2D` formula (`thickness` already
defaulted). -/
noncomputable def slide_a2DF (length depth slope thickness psi gravity gamma
    massco dragco : ℝ) : ℝ :=
  slide_s0F length depth slope psi gravity gamma massco dragco *
    (0.0574 - 0.0431 * Real.sin (radians slope)) * (thickness / length) *
    (length * Real.sin (radians slope) / depth) ^ (1.25 : ℝ) *
    (1 - Real.exp (-2.2 * (gamma - 1)))

/-- Total-real twin of the slide's `a3D` formula. -/
noncomputable def slide_a3DF (length depth slope thickness psi gravity gamma
    massco dragco : ℝ) : ℝ :=
  slide_a2DF length depth slope thickness psi gravity gamma massco dragco /
    (1 + 15.5 * Real.sqrt (depth / (length * Real.sin (radians slope))))

/-- The `a2D` value of the concrete slide run
`slide_tsunami 1600 2 30 (thickness 1600, gravity 2, gamma 2, massco 1,
dragco pi/2, psi 0, kappad 0)`. -/
noncomputable def slideA2Dc : ℝ :=
  4800 * (0.0574 - 0.0431 * (1 / 2)) * 1 * (400 : ℝ) ^ (1.25 : ℝ) *
    (1 - Real.exp (-2.2 * ((2 : ℝ) - 1)))

/-- The `a3D` value of the same concrete slide run. -/
noncomputable def slideA3Dc : ℝ := slideA2Dc / (1 + 15.5 * (1 / 20))

/-- The `a2D` value of the concrete slump run
`slump_tsunami 6 2 90 (thickness 6, radius 6, dphi 2, gravity 2, gamma 2,
massco 1, kappad 0)`. -/
noncomputable def slumpA2Dc : ℝ :=
  6 * 2 / 2 * 0.131 * 1 * (3 : ℝ) ^ (1.25 : ℝ) * 1 * (2 : ℝ) ^ (0.39 : ℝ) *
    (1.47 - 0.35 * ((2 : ℝ) - 1)) * ((2 : ℝ) - 1)

/-- The `a3D` value of the same concrete slump run. -/
noncomputable def slumpA3Dc : ℝ := slumpA2Dc / (1 + 2.06 * Real.sqrt (1 / 3))

/-! ## The extremum search `find_min` -/

/-- If the first non-positive value of the derivative expression along the
backward scan from `x` appears at step `k < n`, the loop stops there and
records `xstar = x - 0.05 * k`. -/
theorem findMinLoop_eq_some (x0 wa kappad dx : ℝ) :
    ∀ (n k : ℕ) (x : ℝ), k < n →
      derivExpr x0 wa kappad dx (x - 0.05 * k) ≤ 0 →
      (∀ j, j < k → 0 < derivExpr x0 wa kappad dx (x - 0.05 * j)) →
      findMinLoop x0 wa kappad dx n x = some (x - 0.05 * k) := by
  intro n
  induction n with
  | zero => intro k x hk; exact absurd hk (Nat.not_lt_zero k)
  | succ n ih =>
    intro k x hk hle hpos
    cases k with
    | zero =>
      rw [findMinLoop, if_pos (by simpa using hle)]
      norm_num
    | succ k =>
      have h0 : 0 < derivExpr x0 wa kappad dx x := by
        simpa using hpos 0 (Nat.succ_pos k)
      rw [findMinLoop, if_neg (not_le.mpr h0)]
      have hstep : x - 0.05 - 0.05 * (k : ℝ) = x - 0.05 * ((k : ℕ) + 1 : ℕ) := by
        push_cast; ring
      have hres := ih k (x - 0.05) (Nat.lt_of_succ_lt_succ hk)
        (by rw [hstep]; exact_mod_cast hle)
        (by
          intro j hj
          have := hpos (j + 1) (Nat.succ_lt_succ hj)
          have harg : x - 0.05 - 0.05 * (j : ℝ) = x - 0.05 * ((j : ℕ) + 1 : ℕ) := by
            push_cast; ring
          rw [harg]; exact_mod_cast this)
      rw [hres, hstep]

/-- If the derivative expression stays positive for all `n` scan steps from
`x`, the loop exhausts its fuel with `xstar` never assigned. -/
theorem findMinLoop_eq_none (x0 wa kappad dx : ℝ) :
    ∀ (n : ℕ) (x : ℝ),
      (∀ j, j < n → 0 < derivExpr x0 wa kappad dx (x - 0.05 * j)) →
      findMinLoop x0 wa kappad dx n x = none := by
  intro n
  induction n with
  | zero => intro x _; rfl
  | succ n ih =>
    intro x hpos
    have h0 : 0 < derivExpr x0 wa kappad dx x := by
      simpa using hpos 0 (Nat.succ_pos n)
    rw [findMinLoop, if_neg (not_le.mpr h0)]
    refine ih (x - 0.05) ?_
    intro j hj
    have := hpos (j + 1) (Nat.succ_lt_succ hj)
    have harg : x - 0.05 - 0.05 * (j : ℝ) = x - 0.05 * ((j : ℕ) + 1 : ℕ) := by
      push_cast; ring
    rw [harg]; exact_mod_cast this

/-- The quantity the loop tests is (up to the negative factor `-(2 / wa^2)`)
the derivative of the shape function `gShape`: the loop is indeed evaluating
the derivative sign of `g` at each step. -/
theorem gShape_hasDerivAt (x0 wa kappad dx x : ℝ) (hwa : wa ≠ 0) :
    HasDerivAt (gShape x0 wa kappad dx)
      (-(2 / wa ^ 2) * derivExpr x0 wa kappad dx x) x := by
  have hid1 : HasDerivAt (fun t : ℝ => (t - x0) / wa) (1 / wa) x := by
    simpa using ((hasDerivAt_id x).sub_const x0).div_const wa
  have hid2 : HasDerivAt (fun t : ℝ => (t - dx - x0) / wa) (1 / wa) x := by
    simpa using (((hasDerivAt_id x).sub_const dx).sub_const x0).div_const wa
  have hsq1 := (hid1.pow 2).neg
  have hsq2 := (hid2.pow 2).neg
  have he1 := hsq1.exp
  have he2 := (hsq2.exp).const_mul kappad
  have hg := he1.sub he2
  have : HasDerivAt (gShape x0 wa kappad dx)
      (Real.exp (-((x - x0) / wa) ^ 2) * -((2 : ℕ) * ((x - x0) / wa) ^ 1 * (1 / wa)) -
        kappad * (Real.exp (-((x - dx - x0) / wa) ^ 2) *
          -((2 : ℕ) * ((x - dx - x0) / wa) ^ 1 * (1 / wa)))) x := by
    exact hg
  convert this using 1
  unfold derivExpr
  field_simp
  ring

/-- Shared characterisation: when `wa ≠ 0` (so no `ZeroDivisionError`) and
step `k` (under the cap) is the first scan point with a non-positive
derivative expression, `find_min` returns the shape value there. -/
theorem find_min_eq_of_first (x0 wa kappad dx : ℝ) (k : ℕ)
    (hwa : wa ≠ 0)
    (hk : k < 1000000)
    (hle : derivExpr x0 wa kappad dx (x0 + 50 - 0.05 * k) ≤ 0)
    (hpos : ∀ j, j < k → 0 < derivExpr x0 wa kappad dx (x0 + 50 - 0.05 * j)) :
    find_min x0 wa kappad dx =
      some (gShape x0 wa kappad dx (x0 + 50 - 0.05 * k)) := by
  unfold find_min
  rw [if_neg hwa,
    findMinLoop_eq_some x0 wa kappad dx 1000000 k (x0 + 50) hk hle hpos]
  simp [f_ystar]

/-- Claim C3 (amended with the proviso `wa ≠ 0`): `find_min` is a fixed-step
backward line search: starting at `x0 + 50` and decrementing by exactly `0.05`
each step, it evaluates the derivative-sign expression of `g` (`derivExpr`,
which is `-(wa^2/2)` times the derivative of `gShape`, see
`gShape_hasDerivAt`) at each step, records as `xstar` the most recent scanned
point at which that expression is non-positive, stops there (within the
1,000,000-iteration cap), and returns `g(xstar)` (times the y-factor extremum
`f_ystar = 1`).  The proviso is forced: at `wa = 0` every derivative
evaluation divides by zero, so the source raises an uncaught
`ZeroDivisionError` instead of searching (see the C3 counterexample). -/
theorem find_min_fixed_step (x0 wa kappad dx : ℝ) (k : ℕ)
    (hwa : wa ≠ 0)
    (hk : k < 1000000)
    (hle : derivExpr x0 wa kappad dx (x0 + 50 - 0.05 * k) ≤ 0)
    (hpos : ∀ j, j < k → 0 < derivExpr x0 wa kappad dx (x0 + 50 - 0.05 * j)) :
    find_min x0 wa kappad dx =
      some (gShape x0 wa kappad dx (x0 + 50 - 0.05 * k)) :=
  find_min_eq_of_first x0 wa kappad dx k hwa hk hle hpos

/-- Counterexample to claim C3 as frozen: at `wa = 0` the claim's search
description still applies (read in exact arithmetic, the very first scanned
point `x = x0 + 50` has non-positive derivative expression, so the claimed
returned value is `g(xstar) = 1 - kappad = -1`), but the source's `find_min`
divides `x - x0` by `wa` in the first derivative evaluation and aborts with an
uncaught `ZeroDivisionError`: no value is returned at all. -/
theorem find_min_fixed_step_cx :
    derivExpr 0 0 2 0 (0 + 50 - 0.05 * (0 : ℕ)) ≤ 0 ∧
      find_min 0 0 2 0 = none := by
  constructor
  · unfold derivExpr
    norm_num
  · unfold find_min
    rw [if_pos rfl]

/-- Witness for C3: with `x0 = 0, wa = 1, kappad = 0, dx = 0` the derivative
expression is `x * exp (-x^2)`, positive at the first 1000 scanned points and
zero at step 1000 (`x = 0` exactly), so the search returns `g(0) = 1`. -/
theorem find_min_fixed_step_witness :
    (1000 : ℕ) < 1000000 ∧
      find_min 0 1 0 0 =
        some (gShape 0 1 0 0 (0 + 50 - 0.05 * (1000 : ℕ))) := by
  constructor
  · norm_num
  · refine find_min_fixed_step 0 1 0 0 1000 (by norm_num) (by norm_num)
      (by norm_num [derivExpr]) ?_
    intro j hj
    have hjn : j ≤ 999 := by omega
    have hjr : (j : ℝ) ≤ 999 := by exact_mod_cast hjn
    have hx : (0 : ℝ) < 0 + 50 - 0.05 * (j : ℝ) := by linarith
    unfold derivExpr
    simp only [zero_mul, mul_zero, sub_zero]
    exact mul_pos hx (Real.exp_pos _)

/-- Claim C8 (amended with the proviso `wa ≠ 0`): if the derivative
expression stays positive at every one of the 1,000,000 scanned points,
`xstar` is never assigned and `find_min`'s result is undefined (the source
raises `NameError`; here `none`); conversely, as soon as it is non-positive at
some scanned point within the cap, the search stops at the first such point
`m` and returns the well-defined value `g(xstar)`.  The proviso is forced: at
`wa = 0` the first derivative evaluation raises an uncaught
`ZeroDivisionError` and no value is produced either way (see the C8
counterexample). -/
theorem find_min_nonconvergence (x0 wa kappad dx : ℝ) (hwa : wa ≠ 0) :
    ((∀ j : ℕ, j < 1000000 → 0 < derivExpr x0 wa kappad dx (x0 + 50 - 0.05 * j)) →
      find_min x0 wa kappad dx = none) ∧
    (∀ k : ℕ, k < 1000000 → derivExpr x0 wa kappad dx (x0 + 50 - 0.05 * k) ≤ 0 →
      ∃ m : ℕ, m ≤ k ∧ derivExpr x0 wa kappad dx (x0 + 50 - 0.05 * m) ≤ 0 ∧
        (∀ j, j < m → 0 < derivExpr x0 wa kappad dx (x0 + 50 - 0.05 * j)) ∧
        find_min x0 wa kappad dx =
          some (gShape x0 wa kappad dx (x0 + 50 - 0.05 * m))) := by
  constructor
  · intro hpos
    unfold find_min
    rw [if_neg hwa, findMinLoop_eq_none x0 wa kappad dx 1000000 (x0 + 50) hpos]
    rfl
  · intro k hk hle
    classical
    have hex : ∃ m : ℕ, derivExpr x0 wa kappad dx (x0 + 50 - 0.05 * m) ≤ 0 := ⟨k, hle⟩
    refine ⟨Nat.find hex, Nat.find_min' hex hle, Nat.find_spec hex, ?_, ?_⟩
    · intro j hj
      exact lt_of_not_le (Nat.find_min hex hj)
    · exact find_min_eq_of_first x0 wa kappad dx (Nat.find hex) hwa
        (lt_of_le_of_lt (Nat.find_min' hex hle) hk) (Nat.find_spec hex)
        (fun j hj => lt_of_not_le (Nat.find_min hex hj))

/-- Counterexample to claim C8 as frozen: its converse part promises a
well-defined returned value `g(xstar)` for every input whose derivative
expression becomes non-positive at a scanned point within the cap.  At
`wa = 0` that premise holds at the very first scanned point (read in exact
arithmetic), yet the source's `find_min` raises an uncaught
`ZeroDivisionError` on the first derivative evaluation and returns nothing. -/
theorem find_min_nonconvergence_cx :
    derivExpr 0 0 3 0 (0 + 50 - 0.05 * (0 : ℕ)) ≤ 0 ∧
      find_min 0 0 3 0 = none := by
  constructor
  · unfold derivExpr
    norm_num
  · unfold find_min
    rw [if_pos rfl]

/-- Witness for C8, both branches at concrete inputs.  Non-convergent branch:
with `x0 = 0, wa = 10^5, kappad = -100, dx = -10^5` the expression
`t*e1 + 100*(t+10^5)*e2` stays positive over the whole scanned range, so the
search returns no value.  Convergent branch: with `x0 = 0, wa = 1,
kappad = 2, dx = 0` the expression is `-t*exp(-t^2) ≤ 0` already at the
first scanned point `t = 50`. -/
theorem find_min_nonconvergence_witness :
    find_min 0 100000 (-100) (-100000) = none ∧
      (∃ m : ℕ, m ≤ 0 ∧
        derivExpr 0 1 2 0 (0 + 50 - 0.05 * m) ≤ 0 ∧
        (∀ j, j < m → 0 < derivExpr 0 1 2 0 (0 + 50 - 0.05 * j)) ∧
        find_min 0 1 2 0 = some (gShape 0 1 2 0 (0 + 50 - 0.05 * m))) := by
  constructor
  · refine (find_min_nonconvergence 0 100000 (-100) (-100000) (by norm_num)).1 ?_
    intro j hj
    have hjn : j ≤ 999999 := by omega
    have hjr : (j : ℝ) ≤ 999999 := by exact_mod_cast hjn
    have hj0 : (0 : ℝ) ≤ (j : ℝ) := Nat.cast_nonneg j
    have ht1 : (0 : ℝ) + 50 - 0.05 * j ≤ 50 := by linarith
    have ht2 : (-50000 : ℝ) ≤ 0 + 50 - 0.05 * j := by linarith
    unfold derivExpr
    have he1pos : 0 < Real.exp (-((0 + 50 - 0.05 * (j : ℝ) - 0) / 100000) ^ 2) :=
      Real.exp_pos _
    have he1le : Real.exp (-((0 + 50 - 0.05 * (j : ℝ) - 0) / 100000) ^ 2) ≤ 1 := by
      rw [Real.exp_le_one_iff]
      have := sq_nonneg ((0 + 50 - 0.05 * (j : ℝ) - 0) / 100000)
      linarith
    have he2ge : Real.exp (-2 : ℝ) ≤
        Real.exp (-((0 + 50 - 0.05 * (j : ℝ) - -100000 - 0) / 100000) ^ 2) := by
      rw [Real.exp_le_exp]
      nlinarith
    have hexp2 : Real.exp (-2 : ℝ) ≥ 1 / 8 := by
      rw [Real.exp_neg]
      have h2 : Real.exp (2 : ℝ) = Real.exp 1 * Real.exp 1 := by
        rw [← Real.exp_add]; norm_num
      have he := Real.exp_one_lt_d9
      have hpos := Real.exp_pos (1 : ℝ)
      have : Real.exp (2 : ℝ) ≤ 8 := by nlinarith
      have h8 : (0 : ℝ) < Real.exp (2 : ℝ) := Real.exp_pos 2
      rw [ge_iff_le, le_inv_comm₀ (by norm_num) h8]
      linarith
    have hsum : (0 + 50 - 0.05 * (j : ℝ) - -100000 - 0) ≥ 50000 := by linarith
    nlinarith [mul_nonneg (by linarith : (0:ℝ) ≤ 0 + 50 - 0.05 * (j : ℝ) + 50000)
        he1pos.le,
      mul_nonneg (by linarith : (0:ℝ) ≤ 0 + 50 - 0.05 * (j : ℝ) - -100000 - 0 - 50000)
        (Real.exp_pos (-((0 + 50 - 0.05 * (j : ℝ) - -100000 - 0) / 100000) ^ 2)).le,
      mul_nonneg (by norm_num : (0:ℝ) ≤ 50000)
        (by linarith : (0:ℝ) ≤ Real.exp (-((0 + 50 - 0.05 * (j : ℝ) - -100000 - 0)
          / 100000) ^ 2) - 1 / 8)]
  · refine (find_min_nonconvergence 0 1 2 0 (by norm_num)).2 0 (by norm_num) ?_
    unfold derivExpr
    norm_num
    nlinarith [Real.exp_pos (-2500 : ℝ), Real.exp_pos (-(50 : ℝ) ^ 2)]

/-! ## The checked scalar operations -/

theorem divOpt_eq_some {a b v : ℝ} : divOpt a b = some v ↔ b ≠ 0 ∧ v = a / b := by
  unfold divOpt
  split_ifs with h
  · constructor
    · intro hc; exact hc.elim
    · rintro ⟨hb, -⟩; exact absurd h hb
  · simp [h, eq_comm]

theorem logOpt_eq_some {x v : ℝ} : logOpt x = some v ↔ 0 < x ∧ v = Real.log x := by
  unfold logOpt
  split_ifs with h
  · constructor
    · intro hc; exact hc.elim
    · rintro ⟨hx, -⟩; exact absurd h (not_le.mpr hx)
  · simp [not_le.mp h, eq_comm]

theorem sqrtOpt_eq_some {x v : ℝ} : sqrtOpt x = some v ↔ 0 ≤ x ∧ v = Real.sqrt x := by
  unfold sqrtOpt
  split_ifs with h
  · constructor
    · intro hc; exact hc.elim
    · rintro ⟨hx, -⟩; exact absurd h (not_lt.mpr hx)
  · simp [not_lt.mp h, eq_comm]

theorem rpowOpt_eq_some {b e v : ℝ} : rpowOpt b e = some v ↔ 0 ≤ b ∧ v = b ^ e := by
  unfold rpowOpt
  split_ifs with h
  · constructor
    · intro hc; exact hc.elim
    · rintro ⟨hx, -⟩; exact absurd h (not_lt.mpr hx)
  · simp [not_lt.mp h, eq_comm]

/-- Success characterisation of the lobe-offset computation: it succeeds
exactly on `0 < zsmall / a3D ≤ 1` (so in particular `a3D ≠ 0`), and then
yields the source's `2.0 * (wavelength * sqrt(-log(zsmall/a3D))) / 5.0`. -/
theorem dxFormulaOpt_eq_some {a3D w zsmall v : ℝ} :
    dxFormulaOpt a3D w zsmall = some v ↔
      a3D ≠ 0 ∧ 0 < zsmall / a3D ∧ zsmall / a3D ≤ 1 ∧
        v = 2.0 * (w * Real.sqrt (-Real.log (zsmall / a3D))) / 5.0 := by
  constructor
  · intro h
    simp only [dxFormulaOpt, Option.bind_eq_bind, Option.bind_eq_some,
      Option.pure_def, Option.some.injEq] at h
    obtain ⟨q, hq, l, hl, s, hs, hv⟩ := h
    obtain ⟨hb, hqv⟩ := divOpt_eq_some.mp hq
    obtain ⟨hqpos, hlv⟩ := logOpt_eq_some.mp hl
    obtain ⟨hlnn, hsv⟩ := sqrtOpt_eq_some.mp hs
    subst hqv; subst hlv; subst hsv
    refine ⟨hb, hqpos, ?_, hv.symm⟩
    by_contra hgt
    have := Real.log_pos (not_le.mp hgt)
    linarith
  · rintro ⟨hb, hqpos, hqle, hv⟩
    have hlog : Real.log (zsmall / a3D) ≤ 0 := Real.log_nonpos hqpos.le hqle
    simp only [dxFormulaOpt, Option.bind_eq_bind, Option.bind_eq_some,
      Option.pure_def, Option.some.injEq]
    exact ⟨zsmall / a3D, divOpt_eq_some.mpr ⟨hb, rfl⟩,
      Real.log (zsmall / a3D), logOpt_eq_some.mpr ⟨hqpos, rfl⟩,
      Real.sqrt (-Real.log (zsmall / a3D)),
      sqrtOpt_eq_some.mpr ⟨neg_nonneg.mpr hlog, rfl⟩, hv.symm⟩

/-- The lobe-offset computation succeeds iff `0 < zsmall / a3D ≤ 1`. -/
theorem dxFormulaOpt_isSome {a3D w zsmall : ℝ} :
    (dxFormulaOpt a3D w zsmall).isSome = true ↔
      0 < zsmall / a3D ∧ zsmall / a3D ≤ 1 := by
  rw [Option.isSome_iff_exists]
  constructor
  · rintro ⟨v, hv⟩
    have := dxFormulaOpt_eq_some.mp hv
    exact ⟨this.2.1, this.2.2.1⟩
  · rintro ⟨hqpos, hqle⟩
    have hb : a3D ≠ 0 := by
      intro h
      rw [h, div_zero] at hqpos
      exact lt_irrefl 0 hqpos
    exact ⟨_, dxFormulaOpt_eq_some.mpr ⟨hb, hqpos, hqle, rfl⟩⟩

/-- With `kappad = 0` the second lobe vanishes: the derivative expression is
`(x - x0) * exp(...)`, first non-positive at scan step 1000 (`x = x0`
exactly), so `find_min` returns `g(x0) = 1` for every `wa ≠ 0` and any
`dx`. -/
theorem find_min_kappad_zero (x0 wa dx : ℝ) (hwa : wa ≠ 0) :
    find_min x0 wa 0 dx = some 1 := by
  have h := find_min_eq_of_first x0 wa 0 dx 1000 hwa (by norm_num)
    (by norm_num [derivExpr])
    (by
      intro j hj
      have hjn : j ≤ 999 := by omega
      have hjr : (j : ℝ) ≤ 999 := by exact_mod_cast hjn
      have hx : (0 : ℝ) < x0 + 50 - 0.05 * (j : ℝ) - x0 := by linarith
      unfold derivExpr
      simp only [zero_mul, mul_zero, sub_zero]
      exact mul_pos hx (Real.exp_pos _))
  rw [h]
  norm_num [gShape]

/-! ## Claims C4 and C10: the `dx` field -/

/-- Claim C4: whenever `dx` is not supplied at construction, and on every
`determineDX(zsmall)` call, the stored `dx` is
`0.4 * wavelength * sqrt(-ln(zsmall / a3D))` (the source's
`2.0 * (w * sqrt(...)) / 5.0`); a supplied `dx` is stored as given, so `dx`
is a concrete number before the first evaluation; and `determineDX` returns
the new `dx` and changes no field besides `dx`. -/
theorem dx_resolution :
    (∀ a3D w wd x0 y0 al ka kd zs sc dg,
        Double_gaussian.make a3D w wd x0 y0 al ka kd zs none sc = some dg →
          dg.dx = 0.4 * w * Real.sqrt (-Real.log (zs / a3D))) ∧
    (∀ a3D w wd x0 y0 al ka kd zs d sc dg,
        Double_gaussian.make a3D w wd x0 y0 al ka kd zs (some d) sc = some dg →
          dg.dx = d) ∧
    (∀ dg zs d dg2, Double_gaussian.determineDX dg zs = some (d, dg2) →
        d = 0.4 * dg.wavelength * Real.sqrt (-Real.log (zs / dg.a3D)) ∧
        dg2.dx = d ∧ dg2.a3D = dg.a3D ∧ dg2.wavelength = dg.wavelength ∧
        dg2.width = dg.width ∧ dg2.x0 = dg.x0 ∧ dg2.y0 = dg.y0 ∧
        dg2.alpha = dg.alpha ∧ dg2.kappa = dg.kappa ∧ dg2.kappad = dg.kappad ∧
        dg2.scale = dg.scale) := by
  refine ⟨?_, ?_, ?_⟩
  · intro a3D w wd x0 y0 al ka kd zs sc dg h
    simp only [Double_gaussian.make, Option.map_eq_some'] at h
    obtain ⟨d, hd, hdg⟩ := h
    obtain ⟨-, -, -, hv⟩ := dxFormulaOpt_eq_some.mp hd
    rw [← hdg]
    simp only [hv]
    ring
  · intro a3D w wd x0 y0 al ka kd zs d sc dg h
    simp only [Double_gaussian.make, Option.some.injEq] at h
    rw [← h]
  · intro dg zs d dg2 h
    simp only [Double_gaussian.determineDX, Option.map_eq_some'] at h
    obtain ⟨d0, hd0, hpair⟩ := h
    obtain ⟨-, -, -, hv⟩ := dxFormulaOpt_eq_some.mp hd0
    have hd : d = d0 := (congrArg Prod.fst hpair).symm
    have hdg2 : dg2 = { dg with dx := d0 } := (congrArg Prod.snd hpair).symm
    subst hd; subst hdg2
    refine ⟨by rw [hv]; ring, rfl, rfl, rfl, rfl, rfl, rfl, rfl, rfl, rfl, rfl⟩

/-- Witness for C4 at a concrete construction: `a3D = 1, wavelength = 1,
zsmall = 1` gives `dx = 0.4 * 1 * sqrt(-ln 1) = 0`. -/
theorem dx_resolution_witness :
    Double_gaussian.make 1 1 1 0 0 0 3 0.8 1 none 5 =
        some (Double_gaussian.mk 1 1 1 0 0 0 3 0.8 5 0) ∧
      (Double_gaussian.mk 1 1 1 0 0 0 3 0.8 5 0).dx =
        0.4 * 1 * Real.sqrt (-Real.log (1 / 1)) := by
  have hmk : Double_gaussian.make 1 1 1 0 0 0 3 0.8 1 none 5 =
      some (Double_gaussian.mk 1 1 1 0 0 0 3 0.8 5 0) := by
    norm_num [Double_gaussian.make, dxFormulaOpt, divOpt, logOpt, sqrtOpt,
      Real.log_one, Real.sqrt_zero]
  exact ⟨hmk, dx_resolution.1 1 1 1 0 0 0 3 0.8 1 5 _ hmk⟩

/-- Claim C10: constructing with `dx` unset, and every `determineDX` call,
has the precondition `0 < zsmall / a3D ≤ 1`: with `0 < a3D < zsmall` the
log is positive and the square root of its negation raises a domain error,
with `zsmall / a3D ≤ 0` (opposite signs, or `a3D = 0`) the log itself
raises, and inside the precondition both succeed. -/
theorem dx_domain_precondition :
    (∀ a3D w wd x0 y0 al ka kd zs sc,
        (Double_gaussian.make a3D w wd x0 y0 al ka kd zs none sc).isSome = true ↔
          0 < zs / a3D ∧ zs / a3D ≤ 1) ∧
    (∀ dg zs, (Double_gaussian.determineDX dg zs).isSome = true ↔
        0 < zs / dg.a3D ∧ zs / dg.a3D ≤ 1) := by
  constructor
  · intro a3D w wd x0 y0 al ka kd zs sc
    have hsame : (Double_gaussian.make a3D w wd x0 y0 al ka kd zs none sc).isSome =
        (dxFormulaOpt a3D w zs).isSome := by
      unfold Double_gaussian.make
      cases dxFormulaOpt a3D w zs <;> rfl
    rw [hsame]
    exact dxFormulaOpt_isSome
  · intro dg zs
    have hsame : (Double_gaussian.determineDX dg zs).isSome =
        (dxFormulaOpt dg.a3D dg.wavelength zs).isSome := by
      unfold Double_gaussian.determineDX
      cases dxFormulaOpt dg.a3D dg.wavelength zs <;> rfl
    rw [hsame]
    exact dxFormulaOpt_isSome

/-! ## The evaluation loop of `Double_gaussian.__call__` -/

theorem excBind_ok {α β : Type} (a : α) (f : α → Except CallErr β) :
    (Except.ok a >>= f) = f a := rfl

theorem excBind_error {α β : Type} (e : CallErr) (f : α → Except CallErr β) :
    ((Except.error e : Except CallErr α) >>= f) = Except.error e := rfl

theorem excBind_eq_ok {α β : Type} {x : Except CallErr α}
    {f : α → Except CallErr β} {b : β} :
    (x >>= f) = Except.ok b ↔ ∃ a, x = Except.ok a ∧ f a = Except.ok b := by
  cases x with
  | error e => simp [excBind_error]
  | ok a => simp [excBind_ok]

theorem zdivE_eq_ok {a b v : ℝ} : zdivE a b = Except.ok v ↔ b ≠ 0 ∧ v = a / b := by
  unfold zdivE
  split_ifs with h
  · constructor
    · intro hc; exact absurd hc (by simp)
    · rintro ⟨hb, -⟩; exact absurd h hb
  · simp [h, eq_comm]

theorem coshE_eq_ok {t v : ℝ} :
    coshE t = Except.ok v ↔ ¬coshOvfBound < |t| ∧ v = Real.cosh t := by
  unfold coshE
  split_ifs with h
  · constructor
    · intro hc; exact absurd hc (by simp)
    · rintro ⟨hb, -⟩; exact absurd h hb
  · simp [h, eq_comm]

theorem sqE_eq_ok {t v : ℝ} :
    sqE t = Except.ok v ↔ ¬sqOvfBound < |t| ∧ v = t ^ 2 := by
  unfold sqE
  split_ifs with h
  · constructor
    · intro hc; exact absurd hc (by simp)
    · rintro ⟨hb, -⟩; exact absurd h hb
  · simp [h, eq_comm]

theorem expE_eq_ok {t v : ℝ} :
    expE t = Except.ok v ↔ ¬expOvfBound < t ∧ v = Real.exp t := by
  unfold expE
  split_ifs with h
  · constructor
    · intro hc; exact absurd hc (by simp)
    · rintro ⟨hb, -⟩; exact absurd h hb
  · simp [h, eq_comm]

theorem zdivE_ok_of {b : ℝ} (h : b ≠ 0) (a : ℝ) :
    zdivE a b = Except.ok (a / b) := if_neg h

theorem coshE_cases (t : ℝ) :
    coshE t = Except.error CallErr.ovf ∨ coshE t = Except.ok (Real.cosh t) := by
  unfold coshE
  split_ifs with h
  · exact Or.inl rfl
  · exact Or.inr rfl

theorem sqE_cases (t : ℝ) :
    sqE t = Except.error CallErr.ovf ∨ sqE t = Except.ok (t ^ 2) := by
  unfold sqE
  split_ifs with h
  · exact Or.inl rfl
  · exact Or.inr rfl

theorem expE_cases (t : ℝ) :
    expE t = Except.error CallErr.ovf ∨ expE t = Except.ok (Real.exp t) := by
  unfold expE
  split_ifs with h
  · exact Or.inl rfl
  · exact Or.inr rfl

/-- A successful element computation identifies its value: the monadic chain
of `__call__`'s try-block evaluates to the closed-form expression in the
source's intermediate variables (and its success forces both denominators
to be nonzero). -/
theorem elemCore_ok_val {dg : Double_gaussian} {xr yr v : ℝ}
    (h : elemCore dg xr yr = Except.ok v) :
    dg.width + dg.wavelength ≠ 0 ∧ dg.wavelength ≠ 0 ∧
      v = (-dg.scale) /
          Real.cosh (dg.kappa * (yr - dg.y0) / (dg.width + dg.wavelength)) ^ 2 *
          (Real.exp (-((xr - dg.x0) / dg.wavelength) ^ 2) -
            dg.kappad * Real.exp (-((xr - dg.dx - dg.x0) / dg.wavelength) ^ 2)) := by
  simp only [elemCore, excBind_eq_ok] at h
  obtain ⟨carg, hcarg, ch, hch, ch2, hch2, t1, ht1, s1, hs1, e1, he1,
    t2, ht2, s2, hs2, e2, he2, hv⟩ := h
  obtain ⟨hww, hcargv⟩ := zdivE_eq_ok.mp hcarg
  obtain ⟨-, hchv⟩ := coshE_eq_ok.mp hch
  obtain ⟨-, hch2v⟩ := sqE_eq_ok.mp hch2
  obtain ⟨hwa, ht1v⟩ := zdivE_eq_ok.mp ht1
  obtain ⟨-, hs1v⟩ := sqE_eq_ok.mp hs1
  obtain ⟨-, he1v⟩ := expE_eq_ok.mp he1
  obtain ⟨-, ht2v⟩ := zdivE_eq_ok.mp ht2
  obtain ⟨-, hs2v⟩ := sqE_eq_ok.mp hs2
  obtain ⟨-, he2v⟩ := expE_eq_ok.mp he2
  have hvv : v = (-dg.scale) / ch2 * (e1 - dg.kappad * e2) := by
    have := hv
    simp only [pure, Except.pure, Except.ok.injEq] at this
    exact this.symm
  subst hcargv hchv hch2v ht1v hs1v he1v ht2v hs2v he2v
  exact ⟨hww, hwa, hvv⟩

/-- With both denominators nonzero no element computation raises the
uncaught `ZeroDivisionError`. -/
theorem elemCore_ne_zdiv (dg : Double_gaussian) (xr yr : ℝ)
    (hww : dg.width + dg.wavelength ≠ 0) (hwa : dg.wavelength ≠ 0) :
    elemCore dg xr yr ≠ Except.error CallErr.zdiv := by
  intro hc
  simp only [elemCore, zdivE_ok_of hww, zdivE_ok_of hwa, excBind_ok] at hc
  rcases coshE_cases (dg.kappa * (yr - dg.y0) / (dg.width + dg.wavelength)) with h | h
  all_goals rw [h] at hc
  · rw [excBind_error] at hc; exact absurd hc (by simp)
  rw [excBind_ok] at hc
  rcases sqE_cases (Real.cosh (dg.kappa * (yr - dg.y0) /
      (dg.width + dg.wavelength))) with h2 | h2
  all_goals rw [h2] at hc
  · rw [excBind_error] at hc; exact absurd hc (by simp)
  rw [excBind_ok] at hc
  rcases sqE_cases ((xr - dg.x0) / dg.wavelength) with h3 | h3
  all_goals rw [h3] at hc
  · rw [excBind_error] at hc; exact absurd hc (by simp)
  rw [excBind_ok] at hc
  rcases expE_cases (-((xr - dg.x0) / dg.wavelength) ^ 2) with h4 | h4
  all_goals rw [h4] at hc
  · rw [excBind_error] at hc; exact absurd hc (by simp)
  rw [excBind_ok] at hc
  rcases sqE_cases ((xr - dg.dx - dg.x0) / dg.wavelength) with h5 | h5
  all_goals rw [h5] at hc
  · rw [excBind_error] at hc; exact absurd hc (by simp)
  rw [excBind_ok] at hc
  rcases expE_cases (-((xr - dg.dx - dg.x0) / dg.wavelength) ^ 2) with h6 | h6
  all_goals rw [h6] at hc
  · rw [excBind_error] at hc; exact absurd hc (by simp)
  rw [excBind_ok] at hc
  exact absurd hc (by simp [pure, Except.pure])

theorem elemExc_ne_zdiv (dg : Double_gaussian) (a b : ℝ)
    (hww : dg.width + dg.wavelength ≠ 0) (hwa : dg.wavelength ≠ 0) :
    elemExc dg a b ≠ Except.error CallErr.zdiv :=
  elemCore_ne_zdiv dg (dg.xr a b) (dg.yr a b) hww hwa

/-- With both denominators nonzero the loop completes, storing `elemValue`
(the computed value, or `0` for an overflowed element) for every point. -/
theorem callElems_eq_some (dg : Double_gaussian)
    (hww : dg.width + dg.wavelength ≠ 0) (hwa : dg.wavelength ≠ 0) :
    ∀ ps : List (ℝ × ℝ),
      callElems dg ps = some (ps.map fun p => elemValue dg p.1 p.2) := by
  intro ps
  induction ps with
  | nil => rfl
  | cons p ps ih =>
    rw [callElems]
    rcases hE : elemExc dg p.1 p.2 with e | v
    · cases e with
      | zdiv => exact absurd hE (elemExc_ne_zdiv dg p.1 p.2 hww hwa)
      | ovf =>
        rw [ih, Option.map_some']
        simp only [List.map_cons]
        rw [show elemValue dg p.1 p.2 = 0 by rw [elemValue, hE]]
    · rw [ih, Option.map_some']
      simp only [List.map_cons]
      rw [show elemValue dg p.1 p.2 = v by rw [elemValue, hE]]
      rfl

theorem callElems_cons (dg : Double_gaussian) (a b : ℝ) (ps : List (ℝ × ℝ)) :
    callElems dg ((a, b) :: ps) =
      match elemExc dg a b with
      | Except.error CallErr.zdiv => none
      | Except.error CallErr.ovf => (callElems dg ps).map fun zs => 0 :: zs
      | Except.ok v => (callElems dg ps).map fun zs => v :: zs := by
  rw [callElems]

theorem map_zip_eq_zipWith (f : ℝ → ℝ → ℝ) :
    ∀ (x y : List ℝ),
      (x.zip y).map (fun p => f p.1 p.2) = List.zipWith f x y := by
  intro x
  induction x with
  | nil => intro y; rfl
  | cons a xs ih =>
    intro y
    cases y with
    | nil => rfl
    | cons b ys => simp [List.zip_cons_cons, ih ys]

theorem zipWith_get (f : ℝ → ℝ → ℝ) :
    ∀ (x y : List ℝ) (i : ℕ) (hix : i < x.length) (hiy : i < y.length)
      (hiz : i < (List.zipWith f x y).length),
      (List.zipWith f x y).get ⟨i, hiz⟩ = f (x.get ⟨i, hix⟩) (y.get ⟨i, hiy⟩) := by
  intro x
  induction x with
  | nil => intro y i hix; exact absurd hix (Nat.not_lt_zero i)
  | cons a xs ih =>
    intro y i hix hiy hiz
    cases y with
    | nil => exact absurd hiy (Nat.not_lt_zero i)
    | cons b ys =>
      cases i with
      | zero => rfl
      | succ n =>
        exact ih ys n (Nat.lt_of_succ_lt_succ hix) (Nat.lt_of_succ_lt_succ hiy)
          (Nat.lt_of_succ_lt_succ hiz)

/-- The source's `(xr, yr)` is the image of the input point under the
clockwise rotation by `-alpha` about `(x0, y0)`. -/
theorem xr_eq_rot (dg : Double_gaussian) (a b : ℝ) :
    dg.xr a b = (rotCW (-(radians dg.alpha)) dg.x0 dg.y0 a b).1 := by
  unfold Double_gaussian.xr rotCW
  rw [Real.cos_neg, Real.sin_neg]
  ring

theorem yr_eq_rot (dg : Double_gaussian) (a b : ℝ) :
    dg.yr a b = (rotCW (-(radians dg.alpha)) dg.x0 dg.y0 a b).2 := by
  unfold Double_gaussian.yr rotCW
  rw [Real.cos_neg, Real.sin_neg]
  ring

/-! ## Claims C1, C6, C7: the evaluator -/

/-- Counterexample to C1 as frozen: an evaluator with `wavelength = 0` (and
`width = 0`) meets an uncaught `ZeroDivisionError` on its very first element,
so `__call__` on the equal-length pair `[0], [0]` returns no sequence at
all. -/
theorem call_elementwise_cx :
    (Double_gaussian.mk 0 0 0 0 0 0 3 0.8 1 0).call [0] [0] = none := by
  have hz : elemExc (Double_gaussian.mk 0 0 0 0 0 0 3 0.8 1 0) 0 0 =
      Except.error CallErr.zdiv := by
    unfold elemExc elemCore zdivE
    rw [if_pos (by norm_num)]
    rw [excBind_error]
  unfold Double_gaussian.call
  rw [if_pos rfl]
  show callElems _ [(0, 0)] = none
  rw [callElems, hz]

/-- Claim C1 (amended): provided the evaluator's `wavelength` and
`width + wavelength` are nonzero (otherwise the loop's float divisions raise
an uncaught `ZeroDivisionError` and no sequence is returned, see
`call_elementwise_cx`), `__call__` on equal-length sequences returns a
sequence of the same length computed pointwise as `elemValue` — so each
element depends only on `(x_i, y_i)` and the evaluator's fields — and every
element whose computation does not overflow equals
`-scale / cosh(kappa*(yr-y0)/(width+wavelength))^2 *
(exp(-((xr-x0)/wavelength)^2) - kappad*exp(-((xr-dx-x0)/wavelength)^2))`
with `(xr, yr)` the input point rotated by `-alpha` (degrees, clockwise
positive) about `(x0, y0)`. -/
theorem call_elementwise (dg : Double_gaussian) (x y : List ℝ)
    (hwa : dg.wavelength ≠ 0) (hww : dg.width + dg.wavelength ≠ 0)
    (hlen : x.length = y.length) :
    ∃ z, dg.call x y = some z ∧ z.length = x.length ∧
      z = List.zipWith (fun a b => elemValue dg a b) x y ∧
      ∀ a b v, elemExc dg a b = Except.ok v → v = specElemFormula dg a b := by
  refine ⟨List.zipWith (fun a b => elemValue dg a b) x y, ?_, ?_, rfl, ?_⟩
  · unfold Double_gaussian.call
    rw [if_pos hlen, callElems_eq_some dg hww hwa,
      map_zip_eq_zipWith (fun a b => elemValue dg a b) x y]
  · rw [List.length_zipWith, hlen, min_self]
  · intro a b v hv
    obtain ⟨-, -, hval⟩ := elemCore_ok_val hv
    rw [hval, specElemFormula, ← xr_eq_rot, ← yr_eq_rot]

/-- Witness for C1 (amended) at a concrete evaluator and one-point input. -/
theorem call_elementwise_witness :
    ∃ z, (Double_gaussian.mk 0 1 0 0 0 0 3 0.8 1 0).call [0] [0] = some z ∧
      z.length = [(0 : ℝ)].length ∧
      z = List.zipWith
        (fun a b => elemValue (Double_gaussian.mk 0 1 0 0 0 0 3 0.8 1 0) a b)
        [0] [0] ∧
      ∀ a b v, elemExc (Double_gaussian.mk 0 1 0 0 0 0 3 0.8 1 0) a b =
          Except.ok v →
        v = specElemFormula (Double_gaussian.mk 0 1 0 0 0 0 3 0.8 1 0) a b :=
  call_elementwise (Double_gaussian.mk 0 1 0 0 0 0 3 0.8 1 0) [0] [0]
    (by norm_num) (by norm_num) rfl

/-- Counterexample to C6 as frozen: with `wavelength = 0`, `width = 1` and
`kappa = 1000` the first element's `cosh` overflows (caught), but the second
element raises the uncaught `ZeroDivisionError`, so the call returns nothing:
the overflowed element does NOT come back as `0` and an exception does
propagate. -/
theorem overflow_to_zero_cx :
    elemExc (Double_gaussian.mk 0 0 1 0 0 0 1000 0 1 0) 0 1 =
        Except.error CallErr.ovf ∧
      (Double_gaussian.mk 0 0 1 0 0 0 1000 0 1 0).call [0, 0] [1, 0] = none := by
  have hrad : radians 0 = 0 := by unfold radians; norm_num
  have hyr : (Double_gaussian.mk 0 0 1 0 0 0 1000 0 1 0).yr 0 1 = 1 := by
    unfold Double_gaussian.yr
    rw [hrad, Real.cos_zero, Real.sin_zero]
    norm_num
  have h1 : elemExc (Double_gaussian.mk 0 0 1 0 0 0 1000 0 1 0) 0 1 =
      Except.error CallErr.ovf := by
    unfold elemExc elemCore
    rw [hyr]
    rw [show zdivE ((Double_gaussian.mk 0 0 1 0 0 0 1000 0 1 0).kappa *
        (1 - (Double_gaussian.mk 0 0 1 0 0 0 1000 0 1 0).y0))
        ((Double_gaussian.mk 0 0 1 0 0 0 1000 0 1 0).width +
          (Double_gaussian.mk 0 0 1 0 0 0 1000 0 1 0).wavelength) =
        Except.ok (1000 * (1 - 0) / (1 + 0)) from zdivE_ok_of (by norm_num) _]
    rw [excBind_ok]
    rw [show coshE (1000 * (1 - 0) / (1 + 0)) = Except.error CallErr.ovf by
      unfold coshE coshOvfBound
      rw [if_pos]
      rw [abs_of_nonneg (by norm_num)]
      norm_num]
    rw [excBind_error]
  have h2 : elemExc (Double_gaussian.mk 0 0 1 0 0 0 1000 0 1 0) 0 0 =
      Except.error CallErr.zdiv := by
    have hyr0 : (Double_gaussian.mk 0 0 1 0 0 0 1000 0 1 0).yr 0 0 = 0 := by
      unfold Double_gaussian.yr
      rw [hrad, Real.cos_zero, Real.sin_zero]
      norm_num
    unfold elemExc elemCore
    rw [hyr0]
    rw [show zdivE ((Double_gaussian.mk 0 0 1 0 0 0 1000 0 1 0).kappa *
        (0 - (Double_gaussian.mk 0 0 1 0 0 0 1000 0 1 0).y0))
        ((Double_gaussian.mk 0 0 1 0 0 0 1000 0 1 0).width +
          (Double_gaussian.mk 0 0 1 0 0 0 1000 0 1 0).wavelength) =
        Except.ok (1000 * (0 - 0) / (1 + 0)) from zdivE_ok_of (by norm_num) _]
    rw [excBind_ok]
    rw [show coshE (1000 * (0 - 0) / (1 + 0)) = Except.ok (Real.cosh 0) by
      unfold coshE coshOvfBound
      rw [if_neg]
      · norm_num
      · rw [abs_of_nonneg (by norm_num)]; norm_num]
    rw [excBind_ok]
    rw [show sqE (Real.cosh 0) = Except.ok (Real.cosh 0 ^ 2) by
      unfold sqE sqOvfBound
      rw [if_neg]
      rw [Real.cosh_zero, abs_of_nonneg (by norm_num)]
      norm_num]
    rw [excBind_ok]
    rw [show zdivE ((Double_gaussian.mk 0 0 1 0 0 0 1000 0 1 0).xr 0 0 -
        (Double_gaussian.mk 0 0 1 0 0 0 1000 0 1 0).x0)
        (Double_gaussian.mk 0 0 1 0 0 0 1000 0 1 0).wavelength =
        Except.error CallErr.zdiv from if_pos rfl]
    rw [excBind_error]
  refine ⟨h1, ?_⟩
  unfold Double_gaussian.call
  split_ifs with hL
  · show callElems (Double_gaussian.mk 0 0 1 0 0 0 1000 0 1 0)
        [((0 : ℝ), (1 : ℝ)), ((0 : ℝ), (0 : ℝ))] = none
    rw [callElems_cons, h1]
    show (callElems (Double_gaussian.mk 0 0 1 0 0 0 1000 0 1 0)
        [((0 : ℝ), (0 : ℝ))]).map (fun zs => 0 :: zs) = none
    rw [callElems_cons, h2]
    rfl
  · rfl

/-- Claim C6 (amended): provided `wavelength ≠ 0` and
`width + wavelength ≠ 0` (so no uncaught `ZeroDivisionError` can abort the
loop, see `overflow_to_zero_cx`), `__call__` always returns a full sequence;
every element whose computation overflows comes back as exactly `0` (the
pre-initialised default), and every other element carries its normally
computed value. -/
theorem overflow_to_zero (dg : Double_gaussian) (x y : List ℝ)
    (hwa : dg.wavelength ≠ 0) (hww : dg.width + dg.wavelength ≠ 0)
    (hlen : x.length = y.length) :
    ∃ z, dg.call x y = some z ∧ z.length = x.length ∧
      ∀ i (hix : i < x.length) (hiy : i < y.length) (hiz : i < z.length),
        (elemExc dg (x.get ⟨i, hix⟩) (y.get ⟨i, hiy⟩) =
            Except.error CallErr.ovf → z.get ⟨i, hiz⟩ = 0) ∧
        (∀ v, elemExc dg (x.get ⟨i, hix⟩) (y.get ⟨i, hiy⟩) = Except.ok v →
          z.get ⟨i, hiz⟩ = v) := by
  refine ⟨List.zipWith (fun a b => elemValue dg a b) x y, ?_, ?_, ?_⟩
  · unfold Double_gaussian.call
    rw [if_pos hlen, callElems_eq_some dg hww hwa,
      map_zip_eq_zipWith (fun a b => elemValue dg a b) x y]
  · rw [List.length_zipWith, hlen, min_self]
  · intro i hix hiy hiz
    rw [zipWith_get (fun a b => elemValue dg a b) x y i hix hiy hiz]
    constructor
    · intro hovf
      rw [elemValue, hovf]
    · intro v hok
      rw [elemValue, hok]

/-- Witness for C6 (amended) at a concrete evaluator and one-point input. -/
theorem overflow_to_zero_witness :
    ∃ z, (Double_gaussian.mk 0 2 0 0 0 0 3 0.8 1 0).call [0] [0] = some z ∧
      z.length = [(0 : ℝ)].length ∧
      ∀ i (hix : i < [(0 : ℝ)].length) (hiy : i < [(0 : ℝ)].length)
        (hiz : i < z.length),
        (elemExc (Double_gaussian.mk 0 2 0 0 0 0 3 0.8 1 0)
            ([(0 : ℝ)].get ⟨i, hix⟩) ([(0 : ℝ)].get ⟨i, hiy⟩) =
            Except.error CallErr.ovf → z.get ⟨i, hiz⟩ = 0) ∧
        (∀ v, elemExc (Double_gaussian.mk 0 2 0 0 0 0 3 0.8 1 0)
            ([(0 : ℝ)].get ⟨i, hix⟩) ([(0 : ℝ)].get ⟨i, hiy⟩) = Except.ok v →
          z.get ⟨i, hiz⟩ = v) :=
  overflow_to_zero (Double_gaussian.mk 0 2 0 0 0 0 3 0.8 1 0) [0] [0]
    (by norm_num) (by norm_num) rfl

/-- Claim C7: for two evaluators identical except that one has `alpha = 0`,
evaluating the `alpha = α` evaluator at the image of a point under the
clockwise rotation by `α` degrees about `(x0, y0)` yields exactly what the
`alpha = 0` evaluator produces at the original point. -/
theorem rotation_invariance (dg : Double_gaussian) (px py : ℝ) :
    dg.call [(rotCW (radians dg.alpha) dg.x0 dg.y0 px py).1]
        [(rotCW (radians dg.alpha) dg.x0 dg.y0 px py).2] =
      { dg with alpha := 0 }.call [px] [py] := by
  have hcs : Real.cos (radians dg.alpha) ^ 2 + Real.sin (radians dg.alpha) ^ 2 = 1 :=
    Real.cos_sq_add_sin_sq (radians dg.alpha)
  have h1 : dg.xr (rotCW (radians dg.alpha) dg.x0 dg.y0 px py).1
      (rotCW (radians dg.alpha) dg.x0 dg.y0 px py).2 = px := by
    unfold Double_gaussian.xr rotCW
    linear_combination (px - dg.x0) * hcs
  have h2 : dg.yr (rotCW (radians dg.alpha) dg.x0 dg.y0 px py).1
      (rotCW (radians dg.alpha) dg.x0 dg.y0 px py).2 = py := by
    unfold Double_gaussian.yr rotCW
    linear_combination (py - dg.y0) * hcs
  have hrad : radians (0 : ℝ) = 0 := by unfold radians; norm_num
  have h3 : ({ dg with alpha := 0 } : Double_gaussian).xr px py = px := by
    unfold Double_gaussian.xr
    show (px - dg.x0) * Real.cos (radians 0) - (py - dg.y0) * Real.sin (radians 0)
        + dg.x0 = px
    rw [hrad, Real.cos_zero, Real.sin_zero]
    ring
  have h4 : ({ dg with alpha := 0 } : Double_gaussian).yr px py = py := by
    unfold Double_gaussian.yr
    show (px - dg.x0) * Real.sin (radians 0) + (py - dg.y0) * Real.cos (radians 0)
        + dg.y0 = py
    rw [hrad, Real.cos_zero, Real.sin_zero]
    ring
  have he : elemExc dg (rotCW (radians dg.alpha) dg.x0 dg.y0 px py).1
      (rotCW (radians dg.alpha) dg.x0 dg.y0 px py).2 =
      elemExc { dg with alpha := 0 } px py := by
    unfold elemExc
    rw [h1, h2, h3, h4]
    rfl
  unfold Double_gaussian.call
  have hA : ([(rotCW (radians dg.alpha) dg.x0 dg.y0 px py).1] : List ℝ).length =
      ([(rotCW (radians dg.alpha) dg.x0 dg.y0 px py).2] : List ℝ).length := rfl
  have hB : ([px] : List ℝ).length = ([py] : List ℝ).length := rfl
  rw [if_pos hA, if_pos hB]
  show callElems dg [((rotCW (radians dg.alpha) dg.x0 dg.y0 px py).1,
      (rotCW (radians dg.alpha) dg.x0 dg.y0 px py).2)] =
    callElems { dg with alpha := 0 } [(px, py)]
  rw [callElems_cons, callElems_cons, he]
  rcases hE : elemExc { dg with alpha := 0 } px py with e | v
  · cases e <;> rfl
  · rfl

/-! ## Decomposing the derivation procedures -/

theorem xr_self (dg : Double_gaussian) : dg.xr dg.x0 dg.y0 = dg.x0 := by
  unfold Double_gaussian.xr
  ring

theorem yr_self (dg : Double_gaussian) : dg.yr dg.x0 dg.y0 = dg.y0 := by
  unfold Double_gaussian.yr
  ring

/-- A successful evaluation at the evaluator's own centre `(x0, y0)` yields
`-scale * (1 - kappad * exp(-(dx/wavelength)^2))`: the `cosh` factor is `1`
and the first Gaussian is `exp 0 = 1` there. -/
theorem elemExc_at_origin {dg : Double_gaussian} {v : ℝ}
    (h : elemExc dg dg.x0 dg.y0 = Except.ok v) :
    v = -dg.scale * (1 - dg.kappad * Real.exp (-(dg.dx / dg.wavelength) ^ 2)) := by
  rw [elemExc, xr_self, yr_self] at h
  obtain ⟨-, -, hval⟩ := elemCore_ok_val h
  rw [hval]
  rw [show dg.y0 - dg.y0 = 0 from sub_self dg.y0,
    show dg.x0 - dg.x0 = 0 from sub_self dg.x0,
    show dg.x0 - dg.dx - dg.x0 = -dg.dx by ring]
  rw [mul_zero, zero_div, Real.cosh_zero, one_pow, div_one, zero_div]
  rw [show (0 : ℝ) ^ 2 = 0 from zero_pow two_ne_zero, neg_zero, Real.exp_zero]
  rw [neg_div, neg_sq]

/-- A single-point call with a successfully computed element returns that
element as a one-element list. -/
theorem call_single_of_ok {dg : Double_gaussian} {a b v : ℝ}
    (h : elemExc dg a b = Except.ok v) : dg.call [a] [b] = some [v] := by
  unfold Double_gaussian.call
  have hL : ([a] : List ℝ).length = ([b] : List ℝ).length := rfl
  rw [if_pos hL]
  show callElems dg [(a, b)] = some [v]
  rw [callElems_cons, h]
  rfl

/-- Master decomposition of a successful `slide_tsunami` run: success forces
every guarded denominator of the derivation nonzero (in particular `depth`,
`length`, `tan(slope)`, the initial acceleration `a0` and the amplitude
`a3D`), and the returned evaluator's `scale` field is `a3D / nmin` with
`nmin` the `find_min` value at the evaluator's own parameters (or the
caller's `scale` verbatim when one was supplied). -/
theorem slide_some_master
    (length depth slope : ℝ) (width thickness : Option ℝ)
    (x0 y0 alpha gravity gamma massco dragco frictionco psi : ℝ)
    (dxArg : Option ℝ) (kappa kappad zsmall : ℝ) (scaleArg : Option ℝ)
    (domain : Option (ℝ × ℝ)) (dg : Double_gaussian)
    (h : slide_tsunami length depth slope width thickness x0 y0 alpha gravity
      gamma massco dragco frictionco psi dxArg kappa kappad zsmall scaleArg
      domain = some dg) :
    depth ≠ 0 ∧ length ≠ 0 ∧ Real.tan (radians slope) ≠ 0 ∧
      slide_a0F slope psi gravity gamma massco ≠ 0 ∧
      slide_a3DF length depth slope (thickness.getD (0.01 * length)) psi gravity
        gamma massco dragco ≠ 0 ∧
      ∃ n, find_min dg.x0 dg.wavelength dg.kappad dg.dx = some n ∧
        (scaleArg = none → n ≠ 0 ∧ dg.scale = dg.a3D / n) ∧
        (∀ s, scaleArg = some s → dg.scale = s) := by
  unfold slide_tsunami at h
  obtain ⟨r1, hr1, h⟩ := Option.bind_eq_some.mp h
  obtain ⟨r2, hr2, h⟩ := Option.bind_eq_some.mp h
  obtain ⟨u1, hu1, h⟩ := Option.bind_eq_some.mp h
  obtain ⟨u2, hu2, h⟩ := Option.bind_eq_some.mp h
  obtain ⟨ut, hut, h⟩ := Option.bind_eq_some.mp h
  obtain ⟨s0, hs0, h⟩ := Option.bind_eq_some.mp h
  obtain ⟨t0, ht0, h⟩ := Option.bind_eq_some.mp h
  obtain ⟨wsq, hwsq, h⟩ := Option.bind_eq_some.mp h
  obtain ⟨tl, htl, h⟩ := Option.bind_eq_some.mp h
  obtain ⟨p1, hp1, h⟩ := Option.bind_eq_some.mp h
  obtain ⟨dv, hdv, h⟩ := Option.bind_eq_some.mp h
  obtain ⟨sq2, hsq2, h⟩ := Option.bind_eq_some.mp h
  obtain ⟨a3D, ha3D, h⟩ := Option.bind_eq_some.mp h
  obtain ⟨dxv, hdxv, h⟩ := Option.bind_eq_some.mp h
  obtain ⟨nmin, hnmin, h⟩ := Option.bind_eq_some.mp h
  obtain ⟨-, hr1v⟩ := divOpt_eq_some.mp hr1
  obtain ⟨htant, hr2v⟩ := divOpt_eq_some.mp hr2
  obtain ⟨hdepth, hu1v⟩ := divOpt_eq_some.mp hu1
  obtain ⟨-, hu2v⟩ := divOpt_eq_some.mp hu2
  obtain ⟨-, hutv⟩ := sqrtOpt_eq_some.mp hut
  obtain ⟨ha0, hs0v⟩ := divOpt_eq_some.mp hs0
  obtain ⟨-, ht0v⟩ := divOpt_eq_some.mp ht0
  obtain ⟨-, hwsqv⟩ := sqrtOpt_eq_some.mp hwsq
  obtain ⟨hlen, htlv⟩ := divOpt_eq_some.mp htl
  obtain ⟨-, hp1v⟩ := rpowOpt_eq_some.mp hp1
  obtain ⟨-, hdvv⟩ := divOpt_eq_some.mp hdv
  obtain ⟨-, hsq2v⟩ := sqrtOpt_eq_some.mp hsq2
  obtain ⟨-, ha3Dv⟩ := divOpt_eq_some.mp ha3D
  obtain ⟨ha3Dne, -, -, hdxvv⟩ := dxFormulaOpt_eq_some.mp hdxv
  subst hr1v hr2v hu1v hu2v hutv hs0v ht0v hwsqv htlv hp1v hdvv hsq2v ha3Dv
  refine ⟨hdepth, hlen, htant, ?_, ?_, ?_⟩
  · unfold slide_a0F
    exact ha0
  · unfold slide_a3DF slide_a2DF slide_s0F slide_utF slide_a0F
    exact ha3Dne
  · rcases scaleArg with _ | s
    · obtain ⟨scalev, hscalev, hmk⟩ := Option.bind_eq_some.mp h
      simp only [Double_gaussian.make, Option.some.injEq] at hmk
      subst hmk
      obtain ⟨hnz, hv⟩ := divOpt_eq_some.mp hscalev
      refine ⟨nmin, hnmin, fun _ => ⟨hnz, hv⟩, ?_⟩
      intro s2 hs2
      exact absurd hs2 (by simp)
    · obtain ⟨scalev, hscalev, hmk⟩ := Option.bind_eq_some.mp h
      simp only [Double_gaussian.make, Option.some.injEq] at hmk
      subst hmk
      have hss : scalev = s := by
        have h2 := hscalev
        simp only [Option.pure_def, Option.some.injEq] at h2
        exact h2.symm
      refine ⟨nmin, hnmin, ?_, ?_⟩
      · intro habs
        exact absurd habs (by simp)
      · intro s2 hs2
        have h12 : s = s2 := by simpa using hs2
        show scalev = s2
        rw [hss, ← h12]

/-- Master decomposition of a successful `slump_tsunami` run: the returned
evaluator's `scale` field is `a3D / nmin` with `nmin` the `find_min` value
at the evaluator's own parameters (or the caller's `scale` verbatim). -/
theorem slump_some_scale
    (length depth slope : ℝ) (width thickness radius : Option ℝ)
    (dphi x0 y0 alpha gravity gamma massco dragco frictionco : ℝ)
    (dxArg : Option ℝ) (kappa kappad zsmall : ℝ) (scaleArg : Option ℝ)
    (domain : Option (ℝ × ℝ)) (dg : Double_gaussian)
    (h : slump_tsunami length depth slope width thickness radius dphi x0 y0
      alpha gravity gamma massco dragco frictionco dxArg kappa kappad zsmall
      scaleArg domain = some dg) :
    ∃ n, find_min dg.x0 dg.wavelength dg.kappad dg.dx = some n ∧
      (scaleArg = none → n ≠ 0 ∧ dg.scale = dg.a3D / n) ∧
      (∀ s, scaleArg = some s → dg.scale = s) := by
  unfold slump_tsunami at h
  rcases radius with _ | rr
  all_goals obtain ⟨radiusv, hrad, h⟩ := Option.bind_eq_some.mp h
  all_goals obtain ⟨t1, ht1, h⟩ := Option.bind_eq_some.mp h
  all_goals obtain ⟨t0, ht0, h⟩ := Option.bind_eq_some.mp h
  all_goals obtain ⟨a0, ha0, h⟩ := Option.bind_eq_some.mp h
  all_goals obtain ⟨um, hum, h⟩ := Option.bind_eq_some.mp h
  all_goals obtain ⟨wsq, hwsq, h⟩ := Option.bind_eq_some.mp h
  all_goals obtain ⟨f1, hf1, h⟩ := Option.bind_eq_some.mp h
  all_goals obtain ⟨tl, htl, h⟩ := Option.bind_eq_some.mp h
  all_goals obtain ⟨l1, hl1, h⟩ := Option.bind_eq_some.mp h
  all_goals obtain ⟨p1, hp1, h⟩ := Option.bind_eq_some.mp h
  all_goals obtain ⟨lr, hlr, h⟩ := Option.bind_eq_some.mp h
  all_goals obtain ⟨p2, hp2, h⟩ := Option.bind_eq_some.mp h
  all_goals obtain ⟨p3, hp3, h⟩ := Option.bind_eq_some.mp h
  all_goals obtain ⟨q1, hq1, h⟩ := Option.bind_eq_some.mp h
  all_goals obtain ⟨sq, hsq, h⟩ := Option.bind_eq_some.mp h
  all_goals obtain ⟨a3D, ha3D, h⟩ := Option.bind_eq_some.mp h
  all_goals obtain ⟨dxv, hdxv, h⟩ := Option.bind_eq_some.mp h
  all_goals obtain ⟨nmin, hnmin, h⟩ := Option.bind_eq_some.mp h
  all_goals rcases scaleArg with _ | s
  all_goals obtain ⟨scalev, hscalev, hmk⟩ := Option.bind_eq_some.mp h
  all_goals simp only [Double_gaussian.make, Option.some.injEq] at hmk
  all_goals subst hmk
  all_goals refine ⟨nmin, hnmin, ?_, ?_⟩
  · intro hn
    obtain ⟨hnz, hv⟩ := divOpt_eq_some.mp hscalev
    exact ⟨hnz, hv⟩
  · intro s2 hs2
    exact absurd hs2 (by simp)
  · intro habs
    exact absurd habs (by simp)
  · intro s2 hs2
    have h2 := hscalev
    simp only [Option.pure_def, Option.some.injEq] at h2
    have h12 : s = s2 := by simpa using hs2
    show scalev = s2
    rw [← h2, h12]
  · intro hn
    obtain ⟨hnz, hv⟩ := divOpt_eq_some.mp hscalev
    exact ⟨hnz, hv⟩
  · intro s2 hs2
    exact absurd hs2 (by simp)
  · intro habs
    exact absurd habs (by simp)
  · intro s2 hs2
    have h2 := hscalev
    simp only [Option.pure_def, Option.some.injEq] at h2
    have h12 : s = s2 := by simpa using hs2
    show scalev = s2
    rw [← h2, h12]

/-! ## Claims C9 and C5: the derivation procedures -/

/-- Claim C9: the evaluator returned by `slide_tsunami` (and by
`slump_tsunami`) is independent of the caller-supplied `dx` and `frictionco`
arguments: `dx` is unconditionally recomputed before use and `frictionco` is
never read in either body. -/
theorem derivation_ignores_dx_frictionco
    (length depth slope : ℝ) (width thickness radius : Option ℝ)
    (dphi x0 y0 alpha gravity gamma massco dragco psi : ℝ)
    (f1 f2 : ℝ) (d1 d2 : Option ℝ) (kappa kappad zsmall : ℝ)
    (scale : Option ℝ) (domain : Option (ℝ × ℝ)) :
    slide_tsunami length depth slope width thickness x0 y0 alpha gravity gamma
        massco dragco f1 psi d1 kappa kappad zsmall scale domain =
      slide_tsunami length depth slope width thickness x0 y0 alpha gravity gamma
        massco dragco f2 psi d2 kappa kappad zsmall scale domain ∧
    slump_tsunami length depth slope width thickness radius dphi x0 y0 alpha
        gravity gamma massco dragco f1 d1 kappa kappad zsmall scale domain =
      slump_tsunami length depth slope width thickness radius dphi x0 y0 alpha
        gravity gamma massco dragco f2 d2 kappa kappad zsmall scale domain :=
  ⟨rfl, rfl⟩

/-- Claim C5: `slide_tsunami` fails with an explicitly raised numeric-domain
error (a `none` of the embedding: Python's `ZeroDivisionError`/`ValueError`,
never a silently propagated NaN/Inf, which the checked operations exclude)
whenever `a0` evaluates to zero (`tan(psi) = tan(slope)`), or `depth`,
`length` or `tan(slope)` is zero, or the computed `a3D` is zero (making the
`dx` computation divide by zero under the log). -/
theorem slide_error_conditions
    (length depth slope : ℝ) (width thickness : Option ℝ)
    (x0 y0 alpha gravity gamma massco dragco frictionco psi : ℝ)
    (dxArg : Option ℝ) (kappa kappad zsmall : ℝ) (scale : Option ℝ)
    (domain : Option (ℝ × ℝ))
    (h : depth = 0 ∨ length = 0 ∨ Real.tan (radians slope) = 0 ∨
      slide_a0F slope psi gravity gamma massco = 0 ∨
      slide_a3DF length depth slope (thickness.getD (0.01 * length)) psi gravity
        gamma massco dragco = 0) :
    slide_tsunami length depth slope width thickness x0 y0 alpha gravity gamma
      massco dragco frictionco psi dxArg kappa kappad zsmall scale domain =
      none := by
  rcases hres : slide_tsunami length depth slope width thickness x0 y0 alpha
      gravity gamma massco dragco frictionco psi dxArg kappa kappad zsmall
      scale domain with _ | dg
  · rfl
  obtain ⟨h1, h2, h3, h4, h5, -⟩ := slide_some_master length depth slope width
    thickness x0 y0 alpha gravity gamma massco dragco frictionco psi dxArg
    kappa kappad zsmall scale domain dg hres
  rcases h with h | h | h | h | h
  · exact absurd h h1
  · exact absurd h h2
  · exact absurd h h3
  · exact absurd h h4
  · exact absurd h h5

/-- Witness for C5: a slide with `depth = 0` (the second listed condition)
raises rather than returning an evaluator. -/
theorem slide_error_conditions_witness :
    slide_tsunami 1 0 1 none none 0 0 0 1 2 1 1 0 0 none 3 1 1 none none =
      none :=
  slide_error_conditions 1 0 1 none none 0 0 0 1 2 1 1 0 0 none 3 1 1 none
    none (Or.inl rfl)

/-! ## Claim C2: scale calibration -/

theorem divOpt_ok {b : ℝ} (h : b ≠ 0) (a : ℝ) : divOpt a b = some (a / b) :=
  if_neg h

theorem sqrtOpt_ok {x : ℝ} (h : ¬x < 0) : sqrtOpt x = some (Real.sqrt x) :=
  if_neg h

theorem rpowOpt_ok {b : ℝ} (h : ¬b < 0) (e : ℝ) : rpowOpt b e = some (b ^ e) :=
  if_neg h

/-- Claim C2: for both derivation procedures, with `scale` left unset the
returned evaluator's `scale` field is `a3D / nmin` where `nmin` is the
`find_min` value at the evaluator's own `(x0, wavelength, kappad, dx)`, and
a supplied `scale` is stored unchanged; consequently, evaluating at the
computed `(x0, y0)` yields (absent overflow) the single-element sequence
`[v]` with `v * nmin = -a3D * (1 - kappad * exp(-(dx/wavelength)^2))` — the
exact form of the calibration `|z| ≈ a3D`, whose deviation factor
`g(x0)/nmin` is precisely the search-step tolerance of `find_min` (and is
`1` when `nmin = g(x0)`). -/
theorem scale_calibration :
    (∀ length depth slope width thickness x0 y0 alpha gravity gamma massco
        dragco frictionco psi dxArg kappa kappad zsmall domain
        (dg : Double_gaussian),
      slide_tsunami length depth slope width thickness x0 y0 alpha gravity
          gamma massco dragco frictionco psi dxArg kappa kappad zsmall none
          domain = some dg →
      ∃ n, find_min dg.x0 dg.wavelength dg.kappad dg.dx = some n ∧ n ≠ 0 ∧
        dg.scale = dg.a3D / n ∧
        ∀ v, elemExc dg dg.x0 dg.y0 = Except.ok v →
          dg.call [dg.x0] [dg.y0] = some [v] ∧
          v * n = -dg.a3D *
            (1 - dg.kappad * Real.exp (-(dg.dx / dg.wavelength) ^ 2))) ∧
    (∀ length depth slope width thickness x0 y0 alpha gravity gamma massco
        dragco frictionco psi dxArg kappa kappad zsmall domain s
        (dg : Double_gaussian),
      slide_tsunami length depth slope width thickness x0 y0 alpha gravity
          gamma massco dragco frictionco psi dxArg kappa kappad zsmall (some s)
          domain = some dg →
      dg.scale = s) ∧
    (∀ length depth slope width thickness radius dphi x0 y0 alpha gravity
        gamma massco dragco frictionco dxArg kappa kappad zsmall domain
        (dg : Double_gaussian),
      slump_tsunami length depth slope width thickness radius dphi x0 y0 alpha
          gravity gamma massco dragco frictionco dxArg kappa kappad zsmall none
          domain = some dg →
      ∃ n, find_min dg.x0 dg.wavelength dg.kappad dg.dx = some n ∧ n ≠ 0 ∧
        dg.scale = dg.a3D / n ∧
        ∀ v, elemExc dg dg.x0 dg.y0 = Except.ok v →
          dg.call [dg.x0] [dg.y0] = some [v] ∧
          v * n = -dg.a3D *
            (1 - dg.kappad * Real.exp (-(dg.dx / dg.wavelength) ^ 2))) ∧
    (∀ length depth slope width thickness radius dphi x0 y0 alpha gravity
        gamma massco dragco frictionco dxArg kappa kappad zsmall domain s
        (dg : Double_gaussian),
      slump_tsunami length depth slope width thickness radius dphi x0 y0 alpha
          gravity gamma massco dragco frictionco dxArg kappa kappad zsmall
          (some s) domain = some dg →
      dg.scale = s) := by
  refine ⟨?_, ?_, ?_, ?_⟩
  · intro length depth slope width thickness x0 y0 alpha gravity gamma massco
      dragco frictionco psi dxArg kappa kappad zsmall domain dg h
    obtain ⟨-, -, -, -, -, n, hn, himp, -⟩ := slide_some_master length depth
      slope width thickness x0 y0 alpha gravity gamma massco dragco frictionco
      psi dxArg kappa kappad zsmall none domain dg h
    obtain ⟨hnz, hscale⟩ := himp rfl
    refine ⟨n, hn, hnz, hscale, ?_⟩
    intro v hv
    refine ⟨call_single_of_ok hv, ?_⟩
    rw [elemExc_at_origin hv, hscale]
    field_simp
  · intro length depth slope width thickness x0 y0 alpha gravity gamma massco
      dragco frictionco psi dxArg kappa kappad zsmall domain s dg h
    obtain ⟨-, -, -, -, -, n, hn, -, hs⟩ := slide_some_master length depth
      slope width thickness x0 y0 alpha gravity gamma massco dragco frictionco
      psi dxArg kappa kappad zsmall (some s) domain dg h
    exact hs s rfl
  · intro length depth slope width thickness radius dphi x0 y0 alpha gravity
      gamma massco dragco frictionco dxArg kappa kappad zsmall domain dg h
    obtain ⟨n, hn, himp, -⟩ := slump_some_scale length depth slope width
      thickness radius dphi x0 y0 alpha gravity gamma massco dragco frictionco
      dxArg kappa kappad zsmall none domain dg h
    obtain ⟨hnz, hscale⟩ := himp rfl
    refine ⟨n, hn, hnz, hscale, ?_⟩
    intro v hv
    refine ⟨call_single_of_ok hv, ?_⟩
    rw [elemExc_at_origin hv, hscale]
    field_simp
  · intro length depth slope width thickness radius dphi x0 y0 alpha gravity
      gamma massco dragco frictionco dxArg kappa kappad zsmall domain s dg h
    obtain ⟨n, hn, -, hs⟩ := slump_some_scale length depth slope width
      thickness radius dphi x0 y0 alpha gravity gamma massco dragco frictionco
      dxArg kappa kappad zsmall (some s) domain dg h
    exact hs s rfl

/-! ## Concrete successful runs (witness material for C2) -/



theorem slideA3Dc_bounds : 0.01 ≤ slideA3Dc ∧ 0 < slideA3Dc := by
  have hP : (400 : ℝ) ≤ (400 : ℝ) ^ (1.25 : ℝ) := by
    calc (400 : ℝ) = (400 : ℝ) ^ (1 : ℝ) := (Real.rpow_one 400).symm
    _ ≤ (400 : ℝ) ^ (1.25 : ℝ) :=
      Real.rpow_le_rpow_of_exponent_le (by norm_num) (by norm_num)
  have hPpos : (0 : ℝ) < (400 : ℝ) ^ (1.25 : ℝ) :=
    Real.rpow_pos_of_pos (by norm_num) _
  have hmulinv : Real.exp (-2.2 * ((2 : ℝ) - 1)) * Real.exp (2.2 : ℝ) = 1 := by
    rw [← Real.exp_add]
    norm_num
  have hexp22 : (2 : ℝ) ≤ Real.exp (2.2 : ℝ) := by
    have := Real.add_one_le_exp (2.2 : ℝ)
    linarith
  have hexppos : (0 : ℝ) < Real.exp (-2.2 * ((2 : ℝ) - 1)) := Real.exp_pos _
  have hE : Real.exp (-2.2 * ((2 : ℝ) - 1)) ≤ 1 / 2 := by
    nlinarith
  have hEpos : (0 : ℝ) < 1 - Real.exp (-2.2 * ((2 : ℝ) - 1)) := by linarith
  have hprod : (400 : ℝ) * (1 / 2) ≤
      (400 : ℝ) ^ (1.25 : ℝ) * (1 - Real.exp (-2.2 * ((2 : ℝ) - 1))) := by
    apply mul_le_mul hP (by linarith) (by norm_num) (le_of_lt hPpos)
  constructor
  · unfold slideA3Dc slideA2Dc
    rw [le_div_iff₀ (by norm_num : (0 : ℝ) < 1 + 15.5 * (1 / 20))]
    nlinarith
  · unfold slideA3Dc slideA2Dc
    apply div_pos ?_ (by norm_num)
    have h1 : (0 : ℝ) < 4800 * (0.0574 - 0.0431 * (1 / 2)) := by norm_num
    nlinarith

/-- The concrete slide run succeeds, for any `scale` argument. -/
theorem slide_success (sArg : Option ℝ) :
    (slide_tsunami 1600 2 30 none (some 1600) 0 0 0 2 2 1 (Real.pi / 2) 0 0
      none 3 0 0.01 sArg none).isSome = true := by
  have hs30 : Real.sin (radians 30) = 1 / 2 := by
    rw [show radians 30 = Real.pi / 6 by unfold radians; ring]
    exact Real.sin_pi_div_six
  have ht0 : Real.tan (radians 0) = 0 := by
    rw [show radians 0 = 0 by unfold radians; ring]
    exact Real.tan_zero
  have htanne : Real.tan (radians 30) ≠ 0 := by
    rw [show radians 30 = Real.pi / 6 by unfold radians; ring]
    have hpos : 0 < Real.tan (Real.pi / 6) :=
      Real.tan_pos_of_pos_of_lt_pi_div_two (by positivity)
        (by linarith [Real.pi_pos])
    exact ne_of_gt hpos
  have h1 : divOpt ((2 : ℝ) - 1) (2 + 1) = some (1 / 3) := by
    unfold divOpt
    rw [if_neg (by norm_num)]
    norm_num
  have h2 : divOpt (0 : ℝ) (Real.tan (radians 30)) = some 0 := by
    unfold divOpt
    rw [if_neg htanne, zero_div]
  have h3 : divOpt ((1600 : ℝ) * (1 / 2)) 2 = some 400 := by
    unfold divOpt
    rw [if_neg (by norm_num)]
    norm_num
  have h4 : divOpt (Real.pi * ((2 : ℝ) - 1)) (2 * (Real.pi / 2)) = some 1 := by
    unfold divOpt
    rw [if_neg (by
      rw [show (2 : ℝ) * (Real.pi / 2) = Real.pi by ring]
      exact Real.pi_ne_zero)]
    rw [show Real.pi * ((2 : ℝ) - 1) = Real.pi by ring,
      show (2 : ℝ) * (Real.pi / 2) = Real.pi by ring, div_self Real.pi_ne_zero]
  have h5 : sqrtOpt ((2 : ℝ) * 2 * 400 * 1 * (1 - 0)) = some 40 := by
    unfold sqrtOpt
    rw [show (2 : ℝ) * 2 * 400 * 1 * (1 - 0) = 40 ^ 2 by norm_num]
    rw [if_neg (by norm_num), Real.sqrt_sq (by norm_num : (0 : ℝ) ≤ 40)]
  have h6 : divOpt ((40 : ℝ) ^ 2) (2 * (1 / 2) * (1 / 3) * (1 - 0)) =
      some 4800 := by
    unfold divOpt
    rw [if_neg (by norm_num)]
    norm_num
  have h7 : divOpt (40 : ℝ) (2 * (1 / 2) * (1 / 3) * (1 - 0)) = some 120 := by
    unfold divOpt
    rw [if_neg (by norm_num)]
    norm_num
  have h8 : sqrtOpt ((2 : ℝ) * 2) = some 2 := by
    unfold sqrtOpt
    rw [show (2 : ℝ) * 2 = 2 ^ 2 by norm_num]
    rw [if_neg (by norm_num), Real.sqrt_sq (by norm_num : (0 : ℝ) ≤ 2)]
  have h9 : divOpt (1600 : ℝ) 1600 = some 1 := by
    unfold divOpt
    rw [if_neg (by norm_num)]
    norm_num
  have h10 : rpowOpt (400 : ℝ) 1.25 = some ((400 : ℝ) ^ (1.25 : ℝ)) :=
    rpowOpt_ok (by norm_num) _
  have h11 : divOpt (2 : ℝ) (1600 * (1 / 2)) = some (1 / 400) := by
    unfold divOpt
    rw [if_neg (by norm_num)]
    norm_num
  have h12 : sqrtOpt ((1 : ℝ) / 400) = some (1 / 20) := by
    unfold sqrtOpt
    rw [show (1 : ℝ) / 400 = (1 / 20) ^ 2 by norm_num]
    rw [if_neg (by norm_num), Real.sqrt_sq (by norm_num : (0 : ℝ) ≤ 1 / 20)]
  have h13 : divOpt (4800 * (0.0574 - 0.0431 * (1 / 2)) * 1 *
      (400 : ℝ) ^ (1.25 : ℝ) * (1 - Real.exp (-2.2 * ((2 : ℝ) - 1))))
      (1 + 15.5 * (1 / 20)) = some slideA3Dc := by
    unfold slideA3Dc slideA2Dc
    exact divOpt_ok (by norm_num) _
  obtain ⟨hA3ge, hA3pos⟩ := slideA3Dc_bounds
  have hdx : dxFormulaOpt slideA3Dc (120 * 2) 0.01 =
      some (2.0 * ((120 * 2) * Real.sqrt (-Real.log (0.01 / slideA3Dc))) / 5.0) :=
    dxFormulaOpt_eq_some.mpr ⟨ne_of_gt hA3pos, div_pos (by norm_num) hA3pos,
      (div_le_one hA3pos).mpr (by linarith), rfl⟩
  have hfm : find_min 0 (120 * 2) 0
      (2.0 * ((120 * 2) * Real.sqrt (-Real.log (0.01 / slideA3Dc))) / 5.0) =
      some 1 := find_min_kappad_zero _ _ _ (by norm_num)
  rcases sArg with _ | s
  · have hsc : divOpt slideA3Dc 1 = some (slideA3Dc / 1) := divOpt_ok one_ne_zero _
    simp only [slide_tsunami, hs30, ht0, Option.getD_none, Option.getD_some,
      h1, h2, h3, h4, h5, h6, h7, h8, h9, h10, h11, h12, h13, hdx, hfm, hsc,
      Option.bind_eq_bind, Option.some_bind, Option.pure_def,
      Double_gaussian.make, Option.isSome_some]
  · simp only [slide_tsunami, hs30, ht0, Option.getD_none, Option.getD_some,
      h1, h2, h3, h4, h5, h6, h7, h8, h9, h10, h11, h12, h13, hdx, hfm,
      Option.bind_eq_bind, Option.some_bind, Option.pure_def,
      Double_gaussian.make, Option.isSome_some]



theorem slumpA3Dc_bounds : 0.01 ≤ slumpA3Dc ∧ 0 < slumpA3Dc := by
  have hP : (3 : ℝ) ≤ (3 : ℝ) ^ (1.25 : ℝ) := by
    calc (3 : ℝ) = (3 : ℝ) ^ (1 : ℝ) := (Real.rpow_one 3).symm
    _ ≤ (3 : ℝ) ^ (1.25 : ℝ) :=
      Real.rpow_le_rpow_of_exponent_le (by norm_num) (by norm_num)
  have hPpos : (0 : ℝ) < (3 : ℝ) ^ (1.25 : ℝ) :=
    Real.rpow_pos_of_pos (by norm_num) _
  have hQ : (1 : ℝ) ≤ (2 : ℝ) ^ (0.39 : ℝ) := by
    calc (1 : ℝ) = (2 : ℝ) ^ (0 : ℝ) := (Real.rpow_zero 2).symm
    _ ≤ (2 : ℝ) ^ (0.39 : ℝ) :=
      Real.rpow_le_rpow_of_exponent_le (by norm_num) (by norm_num)
  have hQpos : (0 : ℝ) < (2 : ℝ) ^ (0.39 : ℝ) :=
    Real.rpow_pos_of_pos (by norm_num) _
  have hsq1 : Real.sqrt (1 / 3) ≤ 1 := by
    calc Real.sqrt (1 / 3) ≤ Real.sqrt 1 := Real.sqrt_le_sqrt (by norm_num)
    _ = 1 := Real.sqrt_one
  have hsq0 : (0 : ℝ) ≤ Real.sqrt (1 / 3) := Real.sqrt_nonneg _
  have hden : (0 : ℝ) < 1 + 2.06 * Real.sqrt (1 / 3) := by nlinarith
  have hPQ : (3 : ℝ) * 1 ≤ (3 : ℝ) ^ (1.25 : ℝ) * (2 : ℝ) ^ (0.39 : ℝ) :=
    mul_le_mul hP hQ (by norm_num) (le_of_lt hPpos)
  constructor
  · unfold slumpA3Dc slumpA2Dc
    rw [le_div_iff₀ hden]
    nlinarith
  · unfold slumpA3Dc slumpA2Dc
    apply div_pos ?_ hden
    nlinarith

/-- The concrete slump run succeeds, for any `scale` argument. -/
theorem slump_success (sArg : Option ℝ) :
    (slump_tsunami 6 2 90 none (some 6) (some 6) 2 0 0 0 2 2 1 1 0
      none 3 0 0.01 sArg none).isSome = true := by
  have hs90 : Real.sin (radians 90) = 1 := by
    rw [show radians 90 = Real.pi / 2 by unfold radians; ring]
    exact Real.sin_pi_div_two
  have g1 : divOpt ((6 : ℝ) * (2 + 1)) (2 * (2 - 1)) = some 9 := by
    unfold divOpt
    rw [if_neg (by norm_num)]
    norm_num
  have g2 : sqrtOpt (9 : ℝ) = some 3 := by
    unfold sqrtOpt
    rw [show (9 : ℝ) = 3 ^ 2 by norm_num]
    rw [if_neg (by norm_num), Real.sqrt_sq (by norm_num : (0 : ℝ) ≤ 3)]
  have g3 : divOpt ((6 : ℝ) * 2 / 2) ((3 : ℝ) ^ 2) =
      some ((6 : ℝ) * 2 / 2 / (3 : ℝ) ^ 2) := divOpt_ok (by norm_num) _
  have g4 : divOpt ((6 : ℝ) * 2 / 2) 3 = some ((6 : ℝ) * 2 / 2 / 3) :=
    divOpt_ok (by norm_num) _
  have g5 : sqrtOpt ((2 : ℝ) * 2) = some 2 := by
    unfold sqrtOpt
    rw [show (2 : ℝ) * 2 = 2 ^ 2 by norm_num]
    rw [if_neg (by norm_num), Real.sqrt_sq (by norm_num : (0 : ℝ) ≤ 2)]
  have g6 : divOpt (0.131 : ℝ) 1 = some 0.131 := by
    unfold divOpt
    rw [if_neg (by norm_num)]
    norm_num
  have g7 : divOpt (6 : ℝ) 6 = some 1 := by
    unfold divOpt
    rw [if_neg (by norm_num)]
    norm_num
  have g8 : divOpt ((6 : ℝ) * 1) 2 = some 3 := by
    unfold divOpt
    rw [if_neg (by norm_num)]
    norm_num
  have g9 : rpowOpt (3 : ℝ) 1.25 = some ((3 : ℝ) ^ (1.25 : ℝ)) :=
    rpowOpt_ok (by norm_num) _
  have g10 : rpowOpt (1 : ℝ) 0.63 = some 1 := by
    rw [rpowOpt_ok (by norm_num) _, Real.one_rpow]
  have g11 : rpowOpt (2 : ℝ) 0.39 = some ((2 : ℝ) ^ (0.39 : ℝ)) :=
    rpowOpt_ok (by norm_num) _
  have g12 : divOpt (2 : ℝ) 6 = some (1 / 3) := by
    unfold divOpt
    rw [if_neg (by norm_num)]
    norm_num
  have g13 : sqrtOpt ((1 : ℝ) / 3) = some (Real.sqrt (1 / 3)) :=
    sqrtOpt_ok (by norm_num)
  have hsq0 : (0 : ℝ) ≤ Real.sqrt (1 / 3) := Real.sqrt_nonneg _
  have g14 : divOpt (6 * 2 / 2 * 0.131 * 1 * (3 : ℝ) ^ (1.25 : ℝ) * 1 *
      (2 : ℝ) ^ (0.39 : ℝ) * (1.47 - 0.35 * ((2 : ℝ) - 1)) * ((2 : ℝ) - 1))
      (1 + 2.06 * Real.sqrt (1 / 3)) = some slumpA3Dc := by
    unfold slumpA3Dc slumpA2Dc
    exact divOpt_ok (by nlinarith) _
  obtain ⟨hA3ge, hA3pos⟩ := slumpA3Dc_bounds
  have gdx : dxFormulaOpt slumpA3Dc (3 * 2) 0.01 =
      some (2.0 * ((3 * 2) * Real.sqrt (-Real.log (0.01 / slumpA3Dc))) / 5.0) :=
    dxFormulaOpt_eq_some.mpr ⟨ne_of_gt hA3pos, div_pos (by norm_num) hA3pos,
      (div_le_one hA3pos).mpr (by linarith), rfl⟩
  have gfm : find_min 0 (3 * 2) 0
      (2.0 * ((3 * 2) * Real.sqrt (-Real.log (0.01 / slumpA3Dc))) / 5.0) =
      some 1 := find_min_kappad_zero _ _ _ (by norm_num)
  rcases sArg with _ | s
  · have gsc : divOpt slumpA3Dc 1 = some (slumpA3Dc / 1) := divOpt_ok one_ne_zero _
    simp only [slump_tsunami, hs90, Option.getD_none, Option.getD_some,
      g1, g2, g3, g4, g5, g6, g7, g8, g9, g10, g11, g12, g13, g14, gdx, gfm,
      gsc, Option.bind_eq_bind, Option.some_bind, Option.pure_def,
      Double_gaussian.make, Option.isSome_some]
  · simp only [slump_tsunami, hs90, Option.getD_none, Option.getD_some,
      g1, g2, g3, g4, g5, g6, g7, g8, g9, g10, g11, g12, g13, g14, gdx, gfm,
      Option.bind_eq_bind, Option.some_bind, Option.pure_def,
      Double_gaussian.make, Option.isSome_some]

/-- Witness for C2: the four parts of `scale_calibration` instantiated on
the two concrete successful runs (`scale` unset, then `scale` supplied as
`5` and `7`). -/
theorem scale_calibration_witness :
    ((slide_tsunami 1600 2 30 none (some 1600) 0 0 0 2 2 1 (Real.pi / 2) 0 0
        none 3 0 0.01 none none).elim False fun dg =>
      ∃ n, find_min dg.x0 dg.wavelength dg.kappad dg.dx = some n ∧ n ≠ 0 ∧
        dg.scale = dg.a3D / n ∧
        ∀ v, elemExc dg dg.x0 dg.y0 = Except.ok v →
          dg.call [dg.x0] [dg.y0] = some [v] ∧
          v * n = -dg.a3D *
            (1 - dg.kappad * Real.exp (-(dg.dx / dg.wavelength) ^ 2))) ∧
    ((slide_tsunami 1600 2 30 none (some 1600) 0 0 0 2 2 1 (Real.pi / 2) 0 0
        none 3 0 0.01 (some 5) none).elim False fun dg => dg.scale = 5) ∧
    ((slump_tsunami 6 2 90 none (some 6) (some 6) 2 0 0 0 2 2 1 1 0 none 3 0
        0.01 none none).elim False fun dg =>
      ∃ n, find_min dg.x0 dg.wavelength dg.kappad dg.dx = some n ∧ n ≠ 0 ∧
        dg.scale = dg.a3D / n ∧
        ∀ v, elemExc dg dg.x0 dg.y0 = Except.ok v →
          dg.call [dg.x0] [dg.y0] = some [v] ∧
          v * n = -dg.a3D *
            (1 - dg.kappad * Real.exp (-(dg.dx / dg.wavelength) ^ 2))) ∧
    ((slump_tsunami 6 2 90 none (some 6) (some 6) 2 0 0 0 2 2 1 1 0 none 3 0
        0.01 (some 7) none).elim False fun dg => dg.scale = 7) := by
  refine ⟨?_, ?_, ?_, ?_⟩
  · obtain ⟨dg, hdg⟩ := Option.isSome_iff_exists.mp (slide_success none)
    rw [hdg]
    exact scale_calibration.1 1600 2 30 none (some 1600) 0 0 0 2 2 1
      (Real.pi / 2) 0 0 none 3 0 0.01 none dg hdg
  · obtain ⟨dg, hdg⟩ := Option.isSome_iff_exists.mp (slide_success (some 5))
    rw [hdg]
    exact scale_calibration.2.1 1600 2 30 none (some 1600) 0 0 0 2 2 1
      (Real.pi / 2) 0 0 none 3 0 0.01 none 5 dg hdg
  · obtain ⟨dg, hdg⟩ := Option.isSome_iff_exists.mp (slump_success none)
    rw [hdg]
    exact scale_calibration.2.2.1 6 2 90 none (some 6) (some 6) 2 0 0 0 2 2 1
      1 0 none 3 0 0.01 none dg hdg
  · obtain ⟨dg, hdg⟩ := Option.isSome_iff_exists.mp (slump_success (some 7))
    rw [hdg]
    exact scale_calibration.2.2.2 6 2 90 none (some 6) (some 6) 2 0 0 0 2 2 1
      1 0 none 3 0 0.01 none 7 dg hdg

end SMF
